import Mathlib

/-!
Verification development for the HitoriAI conversational pipeline
(`ai_model.py`, `web_scraper.py`).

The Python code is shallowly embedded: strings are Lean `String`s
(sequences of unicode characters, with ASCII case folding modelling the
Python `str.lower` method), Python float scores are modelled with `ℚ`
(exact arithmetic over the decimal constants of the source), the
`random.choice` calls consume an explicit stream of numbers, and the
fallible effects (database queries and writes, file saves, web fetches)
are oracles supplied through an environment record, with the try/except
structure of the source mirrored by `Except`.  The regular expressions
of the source are embedded through a small backtracking matcher over an
explicit regex syntax, mirroring the leftmost, greedy/lazy, word
boundary semantics of the Python `re` module on these patterns.
-/

/-! ### Python string primitives -/

/-- Model of the Python `str.lower` method (ASCII case folding). -/
def pyLower (s : String) : String := ⟨s.data.map Char.toLower⟩

/-- Model of the Python `str.strip` method with no arguments. -/
def pyStrip (s : String) : String :=
  ⟨((s.data.dropWhile Char.isWhitespace).reverse.dropWhile Char.isWhitespace).reverse⟩

/-- Auxiliary worker for `pySplit`: groups maximal runs of non-whitespace. -/
def splitWsAux : List Char → List Char → List (List Char)
  | [], acc => if acc.isEmpty then [] else [acc.reverse]
  | c :: cs, acc =>
    if c.isWhitespace then
      if acc.isEmpty then splitWsAux cs [] else acc.reverse :: splitWsAux cs []
    else splitWsAux cs (c :: acc)

/-- Model of the Python `str.split` method with no arguments: split on runs
of whitespace, dropping empty fragments. -/
def pySplit (s : String) : List String := (splitWsAux s.data []).map List.asString

/-- Boolean prefix test on lists. -/
def isPrefixB [DecidableEq α] : List α → List α → Bool
  | [], _ => true
  | _ :: _, [] => false
  | a :: as, b :: bs => a = b && isPrefixB as bs

/-- Boolean contiguous-sublist test on lists. -/
def isInfixB [DecidableEq α] : List α → List α → Bool
  | n, [] => isPrefixB n []
  | n, b :: bs => isPrefixB n (b :: bs) || isInfixB n bs

/-- Model of the Python `needle in hay` substring test. -/
def pyIn (needle hay : String) : Bool := isInfixB needle.data hay.data

/-- Model of the Python slice `l[-n:]`. -/
def pyTakeLast (n : ℕ) (l : List α) : List α := l.drop (l.length - n)

/-- Model of the Python string slice `s[:n]`. -/
def pySliceTo (n : ℕ) (s : String) : String := ⟨s.data.take n⟩

/-- Replace every occurrence of a character by a character, modelling the
Python `str.replace` method with one-character arguments. -/
def pyReplaceChar (a b : Char) (s : String) : String :=
  ⟨s.data.map (fun c => if c = a then b else c)⟩

/-- Remove every occurrence of a character, modelling the Python
`str.replace(a, "")` idiom. -/
def pyDropChar (a : Char) (s : String) : String :=
  ⟨s.data.filter (fun c => c ≠ a)⟩

/-! ### The random stream

The Python `random.choice(seq)` call is modelled by drawing the next
number from an explicit stream and reducing it modulo the length of the
sequence; `random.choice` on an empty sequence raises `IndexError`, which
the embedding surfaces as an `Except.error`. -/

/-- An infinite stream of draws standing for the Python `random` state. -/
def RNG : Type := ℕ → ℕ

/-- The stream after one draw has been consumed. -/
def rngTail (g : RNG) : RNG := fun n => g (n + 1)

/-- Model of `random.choice`: pick an element of the list using the next
draw of the stream; on an empty sequence the Python call raises. -/
def randChoice (l : List α) (g : RNG) : Except String (α × RNG) :=
  match l with
  | [] => .error ("IndexError: cannot choose from an empty sequence")
  | a :: as =>
    .ok ((a :: as).get ⟨g 0 % (as.length + 1), Nat.mod_lt _ (Nat.succ_pos _)⟩, rngTail g)

/-! ### A backtracking regex matcher

The source uses a handful of fixed patterns from the Python `re` module.
They are embedded as syntax trees built from character classes,
concatenation, prioritised alternation, greedy and lazy repetition and
the word-boundary assertion, and run by a backtracking matcher that
returns candidate matches in the same priority order as the Python
engine (leftmost position first, greedy preferring longer, lazy
preferring shorter, left alternative first). -/

/-- ASCII model of the regex word character class `\w`. -/
def wordChar (c : Char) : Bool := c.isAlphanum || c = '_'

/-- Word boundary test between two optional neighbouring characters. -/
def boundaryAt (prev next : Option Char) : Bool :=
  (match prev with | none => false | some c => wordChar c) !=
  (match next with | none => false | some c => wordChar c)

/-- Regex syntax: character classes, concatenation, alternation, greedy
and lazy repetition, the empty pattern and the word boundary assertion. -/
inductive RE : Type where
  | eps : RE
  | cls : (Char → Bool) → RE
  | seq : RE → RE → RE
  | alt : RE → RE → RE
  | star : RE → RE
  | starL : RE → RE
  | wb : RE

/-- The character that precedes the remaining input after consuming `u`. -/
def lastPrev (u : List Char) (prev : Option Char) : Option Char :=
  match u.getLast? with
  | some c => some c
  | none => prev

/-- Structural worker for the matcher: all candidate matches of a
pattern at the start of `s`, as pairs of consumed characters and
remaining input, in backtracking priority order.  `prev` is the
character just before `s` (for word boundaries).  Repetition bodies are
matched in place, and the continuation `next` (the matcher with one
unit of fuel less) handles the remaining iterations; an iteration that
consumed nothing is cut off, as the Python engine does. -/
def reMatchGo (next : RE → Option Char → List Char → List (List Char × List Char)) :
    RE → Option Char → List Char → List (List Char × List Char)
  | .eps, _, s => [([], s)]
  | .cls _, _, [] => []
  | .cls p, _, c :: s => if p c then [([c], s)] else []
  | .wb, prev, s => if boundaryAt prev s.head? then [([], s)] else []
  | .seq r1 r2, prev, s =>
      (reMatchGo next r1 prev s).flatMap (fun pr =>
        (reMatchGo next r2 (lastPrev pr.1 prev) pr.2).map (fun qr => (pr.1 ++ qr.1, qr.2)))
  | .alt r1 r2, prev, s => reMatchGo next r1 prev s ++ reMatchGo next r2 prev s
  | .star r, prev, s =>
      ((reMatchGo next r prev s).flatMap (fun pr =>
        if pr.1 = [] then [] else
        (next (.star r) (lastPrev pr.1 prev) pr.2).map
          (fun qr => (pr.1 ++ qr.1, qr.2))))
      ++ [([], s)]
  | .starL r, prev, s =>
      ([], s) ::
      ((reMatchGo next r prev s).flatMap (fun pr =>
        if pr.1 = [] then [] else
        (next (.starL r) (lastPrev pr.1 prev) pr.2).map
          (fun qr => (pr.1 ++ qr.1, qr.2))))

/-- The matcher: the fuel bounds the number of repetition unrollings
beyond the first; every unrolling must consume at least one character,
so fuel `s.length + 1` is exhaustive.  With the fuel spent, a
repetition still offers its empty match. -/
def reMatch : ℕ → RE → Option Char → List Char → List (List Char × List Char)
  | 0 => reMatchGo (fun _ _ s => [([], s)])
  | fuel + 1 => reMatchGo (reMatch fuel)

/-- Scanner for `re.findall` and `re.search`: walk the input from the
left, at each position keep the highest-priority match if there is one
and continue after it (advancing one character on an empty match, as the
Python scanner does), otherwise advance one character. -/
def scanAll (r : RE) : ℕ → Option Char → List Char → List (List Char)
  | 0, _, _ => []
  | fuel + 1, prev, s =>
    match (reMatch (s.length + 1) r prev s).head? with
    | some pr =>
      if pr.1 = [] then
        match s with
        | [] => [pr.1]
        | c :: s2 => pr.1 :: scanAll r fuel (some c) s2
      else pr.1 :: scanAll r fuel (lastPrev pr.1 prev) pr.2
    | none =>
      match s with
      | [] => []
      | c :: s2 => scanAll r fuel (some c) s2

/-- Model of `re.findall` for patterns without capturing groups. -/
def reFindall (r : RE) (s : String) : List String :=
  (scanAll r (s.data.length + 1) none s.data).map List.asString

/-- Model of `re.search` used as a boolean test. -/
def reSearch (r : RE) (s : String) : Bool :=
  !(scanAll r (s.data.length + 1) none s.data).isEmpty

/-- Single literal character. -/
def reChar (c : Char) : RE := .cls (fun x => x = c)

/-- Single literal character under `re.IGNORECASE` (argument given in
lowercase). -/
def reCharCI (c : Char) : RE := .cls (fun x => Char.toLower x = c)

/-- Character class given by a list. -/
def reOneOf (cs : List Char) : RE := .cls (fun x => cs.contains x)

/-- Case-sensitive literal word. -/
def reLit (w : List Char) : RE := w.foldr (fun c r => .seq (reChar c) r) .eps

/-- Case-insensitive literal word (given in lowercase). -/
def reLitCI (w : List Char) : RE := w.foldr (fun c r => .seq (reCharCI c) r) .eps

/-- The regex `r+` as `r r*`. -/
def rePlus (r : RE) : RE := .seq r (.star r)

/-- The regex `r?` (greedy optional). -/
def reOpt (r : RE) : RE := .alt r .eps

/-- Prioritised alternation of a list of patterns. -/
def reAlts : List RE → RE
  | [] => .cls (fun _ => false)
  | r :: rs => rs.foldl .alt r

/-- The class `[a-zA-Z]`. -/
def asciiAlpha (c : Char) : Bool := c.isLower || c.isUpper

/-- Sequencing of a list of patterns. -/
def reSeqs : List RE → RE
  | [] => .eps
  | r :: rs => rs.foldl .seq r


/-! ### Soundness of the matcher

Membership in the language of a pattern, ignoring boundary context: this
is what a successful match guarantees about the consumed characters. -/

/-- The characters a pattern can consume (boundary assertions consume
nothing). -/
inductive Accepts : RE → List Char → Prop where
  | eps : Accepts .eps []
  | cls {p : Char → Bool} {c : Char} : p c = true → Accepts (.cls p) [c]
  | wb : Accepts .wb []
  | seq {r1 r2 : RE} {u v : List Char} :
      Accepts r1 u → Accepts r2 v → Accepts (.seq r1 r2) (u ++ v)
  | altL {r1 r2 : RE} {u : List Char} : Accepts r1 u → Accepts (.alt r1 r2) u
  | altR {r1 r2 : RE} {u : List Char} : Accepts r2 u → Accepts (.alt r1 r2) u
  | starNil {r : RE} : Accepts (.star r) []
  | starCons {r : RE} {u v : List Char} :
      Accepts r u → Accepts (.star r) v → Accepts (.star r) (u ++ v)
  | starLNil {r : RE} : Accepts (.starL r) []
  | starLCons {r : RE} {u v : List Char} :
      Accepts r u → Accepts (.starL r) v → Accepts (.starL r) (u ++ v)

/-- Soundness of the structural worker, given soundness of the
continuation on repetition patterns. -/
theorem reMatchGo_sound
    (next : RE → Option Char → List Char → List (List Char × List Char))
    (hS : ∀ (r : RE) (prev : Option Char) (s : List Char) (pr : List Char × List Char),
      pr ∈ next (.star r) prev s → s = pr.1 ++ pr.2 ∧ Accepts (.star r) pr.1)
    (hL : ∀ (r : RE) (prev : Option Char) (s : List Char) (pr : List Char × List Char),
      pr ∈ next (.starL r) prev s → s = pr.1 ++ pr.2 ∧ Accepts (.starL r) pr.1) :
    ∀ (r : RE) (prev : Option Char) (s : List Char) (pr : List Char × List Char),
      pr ∈ reMatchGo next r prev s → s = pr.1 ++ pr.2 ∧ Accepts r pr.1 := by
  intro r
  induction r with
  | eps =>
    intro prev s pr h
    simp only [reMatchGo, List.mem_singleton] at h
    subst h
    exact ⟨rfl, Accepts.eps⟩
  | cls p =>
    intro prev s pr h
    cases s with
    | nil => simp [reMatchGo] at h
    | cons c s2 =>
      simp only [reMatchGo] at h
      split at h
      · simp only [List.mem_singleton] at h
        subst h
        exact ⟨rfl, Accepts.cls (by assumption)⟩
      · simp at h
  | seq r1 r2 ih1 ih2 =>
    intro prev s pr h
    simp only [reMatchGo, List.mem_flatMap, List.mem_map] at h
    obtain ⟨a, ha, b, hb, rfl⟩ := h
    obtain ⟨rfl, hacc1⟩ := ih1 prev s a ha
    obtain ⟨heq, hacc2⟩ := ih2 (lastPrev a.1 prev) a.2 b hb
    exact ⟨by rw [heq, List.append_assoc], Accepts.seq hacc1 hacc2⟩
  | alt r1 r2 ih1 ih2 =>
    intro prev s pr h
    simp only [reMatchGo, List.mem_append] at h
    rcases h with h | h
    · obtain ⟨h1, h2⟩ := ih1 prev s pr h
      exact ⟨h1, Accepts.altL h2⟩
    · obtain ⟨h1, h2⟩ := ih2 prev s pr h
      exact ⟨h1, Accepts.altR h2⟩
  | star r ih =>
    intro prev s pr h
    simp only [reMatchGo, List.mem_append, List.mem_singleton, List.mem_flatMap,
      List.mem_map] at h
    rcases h with ⟨a, ha, hne⟩ | h
    · split at hne
      · simp at hne
      · obtain ⟨b, hb, rfl⟩ := List.mem_map.mp hne
        obtain ⟨rfl, hacc1⟩ := ih prev s a ha
        obtain ⟨heq, hacc2⟩ := hS r (lastPrev a.1 prev) a.2 b hb
        exact ⟨by rw [heq, List.append_assoc], Accepts.starCons hacc1 hacc2⟩
    · subst h
      exact ⟨rfl, Accepts.starNil⟩
  | starL r ih =>
    intro prev s pr h
    simp only [reMatchGo, List.mem_cons, List.mem_flatMap] at h
    rcases h with h | ⟨a, ha, hne⟩
    · subst h
      exact ⟨rfl, Accepts.starLNil⟩
    · split at hne
      · simp at hne
      · obtain ⟨b, hb, rfl⟩ := List.mem_map.mp hne
        obtain ⟨rfl, hacc1⟩ := ih prev s a ha
        obtain ⟨heq, hacc2⟩ := hL r (lastPrev a.1 prev) a.2 b hb
        exact ⟨by rw [heq, List.append_assoc], Accepts.starLCons hacc1 hacc2⟩
  | wb =>
    intro prev s pr h
    simp only [reMatchGo] at h
    split at h
    · simp only [List.mem_singleton] at h
      subst h
      exact ⟨rfl, Accepts.wb⟩
    · simp at h

/-- Every candidate returned by the matcher splits the input and its
consumed part is in the language of the pattern. -/
theorem reMatch_sound : ∀ (fuel : ℕ) (r : RE) (prev : Option Char) (s : List Char)
    (pr : List Char × List Char), pr ∈ reMatch fuel r prev s →
    s = pr.1 ++ pr.2 ∧ Accepts r pr.1 := by
  intro fuel
  induction fuel with
  | zero =>
    refine reMatchGo_sound _ ?_ ?_
    · intro r prev s pr h
      simp only [List.mem_singleton] at h
      subst h
      exact ⟨rfl, Accepts.starNil⟩
    · intro r prev s pr h
      simp only [List.mem_singleton] at h
      subst h
      exact ⟨rfl, Accepts.starLNil⟩
  | succ f ihf =>
    exact reMatchGo_sound _ (fun r prev s pr h => ihf _ prev s pr h)
      (fun r prev s pr h => ihf _ prev s pr h)

/-- Every string returned by the scanner is in the language of the
pattern and occurs contiguously in the input. -/
theorem scanAll_sound : ∀ (fuel : ℕ) (r : RE) (prev : Option Char) (s : List Char)
    (u : List Char), u ∈ scanAll r fuel prev s → Accepts r u ∧ u <:+: s := by
  intro fuel
  induction fuel with
  | zero =>
    intro r prev s u h
    simp [scanAll] at h
  | succ f ihf =>
    intro r prev s u h
    simp only [scanAll] at h
    split at h
    case _ pr heq =>
      have hpr := reMatch_sound (s.length + 1) r prev s pr
        (List.mem_of_mem_head? (Option.mem_def.mpr heq))
      split at h
      case isTrue hemp =>
        cases s with
        | nil =>
          simp only [List.mem_singleton] at h
          subst h
          rw [hemp]
          exact ⟨hemp ▸ hpr.2, List.nil_infix⟩
        | cons c s2 =>
          simp only [List.mem_cons] at h
          rcases h with rfl | h
          · rw [hemp]
            exact ⟨hemp ▸ hpr.2, List.nil_infix⟩
          · obtain ⟨hacc, hinf⟩ := ihf r (some c) s2 u h
            exact ⟨hacc, List.infix_cons hinf⟩
      case isFalse hemp =>
        simp only [List.mem_cons] at h
        rcases h with rfl | h
        · exact ⟨hpr.2, hpr.1 ▸ (List.prefix_append pr.1 pr.2).isInfix⟩
        · obtain ⟨hacc, hinf⟩ := ihf r (lastPrev pr.1 prev) pr.2 u h
          refine ⟨hacc, hinf.trans ?_⟩
          exact hpr.1 ▸ (List.suffix_append pr.1 pr.2).isInfix
    case _ heq =>
      cases s with
      | nil => simp at h
      | cons c s2 =>
        obtain ⟨hacc, hinf⟩ := ihf r (some c) s2 u h
        exact ⟨hacc, List.infix_cons hinf⟩

/-! ### `ai_model.py`: keyword extraction -/

/-- The fixed stop-word set of `extract_keywords`. -/
def stop_words : List String :=
  ["i", "me", "my", "myself", "we", "our", "ours", "ourselves", "you", "your", "yours",
   "yourself", "yourselves", "he", "him", "his", "himself", "she", "her", "hers",
   "herself", "it", "its", "itself", "they", "them", "their", "theirs", "themselves",
   "what", "which", "who", "whom", "this", "that", "these", "those", "am", "is", "are",
   "was", "were", "be", "been", "being", "have", "has", "had", "having", "do", "does",
   "did", "doing", "a", "an", "the", "and", "but", "if", "or", "because", "as", "until",
   "while", "of", "at", "by", "for", "with", "through", "during", "before", "after",
   "above", "below", "up", "down", "in", "out", "off", "on", "over", "under", "again",
   "further", "then", "once", "know", "tell", "about"]

/-- The pattern `\bK-On!?\b` (run under `re.IGNORECASE`). -/
def pattern_kon : RE :=
  reSeqs [.wb, reCharCI 'k', reChar '-', reCharCI 'o', reCharCI 'n',
    reOpt (reChar '!'), .wb]

/-- The pattern `\bBocchi[^a-z]*Rock\b` (run under `re.IGNORECASE`, where
the negated class excludes letters of both cases). -/
def pattern_bocchi : RE :=
  reSeqs [.wb, reLitCI (['b', 'o', 'c', 'c', 'h', 'i']),
    .star (.cls (fun c => !(c.isLower || c.isUpper))),
    reLitCI (['r', 'o', 'c', 'k']), .wb]

/-- The pattern `\b[A-Za-z]+[!-][A-Za-z]*\b` (the class `[!-]` holds the
two characters `!` and `-`). -/
def pattern_hyphen_excl : RE :=
  reSeqs [.wb, rePlus (.cls asciiAlpha), reOneOf (['!', '-']),
    .star (.cls asciiAlpha), .wb]

/-- The pattern `\b[A-Z][a-z]*-[A-Z][a-z]*\b`, which under
`re.IGNORECASE` is a letter run, a hyphen and a letter run. -/
def pattern_cap_hyphen : RE :=
  reSeqs [.wb, .cls asciiAlpha, .star (.cls asciiAlpha), reChar '-',
    .cls asciiAlpha, .star (.cls asciiAlpha), .wb]

/-- The special pattern list of `extract_keywords`, in source order. -/
def special_patterns : List RE :=
  [pattern_kon, pattern_bocchi, pattern_hyphen_excl, pattern_cap_hyphen]

/-- The pattern `\b[a-zA-Z]+\b` used for plain word tokens. -/
def word_token_pattern : RE := reSeqs [.wb, rePlus (.cls asciiAlpha), .wb]

/-- The tokens contributed by the special-pattern branch of
`extract_keywords`: for every special match, its lowercased form and, if
different, its original-case form. -/
def special_keyword_tokens (message : String) : List String :=
  (special_patterns.flatMap (fun p => reFindall p message)).flatMap (fun kw =>
    if pyLower kw ≠ kw then [pyLower kw, kw] else [pyLower kw])

/-- Embedding of `HitoriAI.extract_keywords`.  The Python source returns
`list(set(keywords))`, whose iteration order is unspecified; the
embedding realises the same set by deduplication keeping first
occurrences. -/
def extract_keywords (message : String) : List String :=
  let words := reFindall word_token_pattern (pyLower message)
  let keywords := words.filter (fun w => !(stop_words.contains w) && decide (w.length > 2))
  (keywords ++ special_keyword_tokens message).dedup

/-! ### `ai_model.py`: the knowledge base -/

/-- One entry of `topic_knowledge`.  Records created by
`learn_from_interaction` carry no `confidence`/`source` keys and records
created by the knowledge stores carry no sentiment/question lists; the
missing list-valued keys are modelled as empty lists (the source
re-creates them as empty lists before every use), and the missing
scalar keys as `none` (the source reads them with `.get` defaults). -/
structure TopicRecord where
  mentions : ℕ
  contexts : List String
  facts : List String
  sentiment_associations : List String
  question_patterns : List String
  response_effectiveness : List String
  confidence : Option ℚ
  source : Option String
deriving Repr, DecidableEq

/-- One entry of `learned_responses`, as created by
`add_learned_pattern`. -/
structure LearnedPattern where
  responses : List String
  success_count : ℕ
  total_uses : ℕ
  intent : String
deriving Repr, DecidableEq

/-- The file-backed knowledge structure.  Python dictionaries preserve
insertion order, so they are modelled as association lists; the
`last_updated` timestamp carries no behaviour and is omitted. -/
structure KnowledgeBase where
  responses : List (String × List String)
  patterns : List (String × List String)
  learned_responses : List (String × LearnedPattern)
  topic_knowledge : List (String × TopicRecord)
  user_interactions : ℕ
deriving Repr, DecidableEq

/-- Dictionary lookup on an association list. -/
def alistLookup (l : List (String × α)) (k : String) : Option α :=
  (l.find? (fun p => p.1 == k)).map (fun p => p.2)

/-- Dictionary assignment on an association list: overwrite the first
entry with the key in place, otherwise append the binding (Python
dictionaries update in place and append new keys in insertion order). -/
def alistInsert : List (String × α) → String → α → List (String × α)
  | [], k, v => [(k, v)]
  | (a, b) :: t, k, v => if a == k then (k, v) :: t else (a, b) :: alistInsert t k v

/-- Embedding of `create_initial_knowledge_base`. -/
def create_initial_knowledge_base : KnowledgeBase where
  responses :=
    [("greeting",
      ["Hello! I\x27m Hitori, your AI assistant. How can I help you today?",
       "Hi there! I\x27m Hitori. What would you like to chat about?",
       "Hey! I\x27m Hitori, nice to meet you. What\x27s on your mind?",
       "Hello! I\x27m Hitori, ready to assist you. What can I do for you?"]),
     ("goodbye",
      ["Goodbye! It was great chatting with you.",
       "See you later! Feel free to come back anytime.",
       "Take care! I\x27ll be here when you need me.",
       "Bye! Thanks for the conversation."]),
     ("thanks",
      ["You\x27re welcome! Happy to help.",
       "No problem at all! Glad I could assist.",
       "My pleasure! Let me know if you need anything else.",
       "You\x27re very welcome! I\x27m here to help."]),
     ("how_are_you",
      ["I\x27m doing great, thank you for asking! How are you?",
       "I\x27m wonderful! Always excited to chat. How about you?",
       "I\x27m doing well! Ready to help with whatever you need.",
       "I\x27m fantastic! Thanks for asking. What\x27s new with you?"]),
     ("what_are_you",
      ["I\x27m Hitori, your AI assistant! I\x27m here to chat, help, and learn from our conversations.",
       "I\x27m Hitori, an AI created to be your helpful companion. I can discuss topics, answer questions, and assist with various tasks.",
       "I\x27m Hitori! I\x27m an AI assistant designed to be conversational, helpful, and friendly.",
       "I\x27m Hitori, your personal AI assistant. I love chatting and helping people with whatever they need."]),
     ("help",
      ["I can help with many things! Ask me questions, have a conversation, get advice, or just chat about your interests.",
       "I\x27m here to assist! I can answer questions, discuss topics, provide information, or simply have a friendly chat.",
       "I can help with various tasks - answering questions, having conversations, providing suggestions, or just being a good listener.",
       "I\x27m ready to help! Whether you need information, want to chat, or need assistance with something, I\x27m here for you."]),
     ("default",
      ["That\x27s interesting! Tell me more about that.",
       "I find that fascinating. What else would you like to discuss?",
       "That\x27s a great point. Can you elaborate?",
       "I\x27d love to hear more about your thoughts on this.",
       "That\x27s quite intriguing. What\x27s your take on it?",
       "I appreciate you sharing that with me. What else is on your mind?"])]
  patterns :=
    [("greeting", ["hello", "hi", "hey", "good morning", "good afternoon", "good evening"]),
     ("goodbye", ["bye", "goodbye", "see you", "farewell", "talk to you later", "gtg"]),
     ("thanks", ["thank", "thanks", "appreciate", "grateful"]),
     ("how_are_you", ["how are you", "how do you feel", "how\x27s it going"]),
     ("what_are_you", ["what are you", "who are you", "tell me about yourself"]),
     ("help", ["help", "assist", "support", "what can you do"])]
  learned_responses := []
  topic_knowledge := []
  user_interactions := 0

/-- Embedding of `find_pattern_match`: first category (declaration
order) one of whose trigger substrings occurs in the message. -/
def find_pattern_match (kb : KnowledgeBase) (message : String) : Option String :=
  kb.patterns.findSome? (fun pt =>
    if pt.2.any (fun pattern => pyIn pattern message) then some pt.1 else none)

/-! ### `ai_model.py`: sentiment and similarity -/

/-- The fixed positive word list of `analyze_sentiment`. -/
def positive_words : List String :=
  ["good", "great", "awesome", "amazing", "love", "like", "happy", "excited",
   "wonderful", "fantastic"]

/-- The fixed negative word list of `analyze_sentiment`. -/
def negative_words : List String :=
  ["bad", "terrible", "awful", "hate", "dislike", "sad", "angry", "frustrated",
   "disappointed"]

/-- Count of list words that occur in the lowercased message, the
`sum(1 for word in ws if word in message_lower)` idiom of the source. -/
def sentiment_count (ws : List String) (message : String) : ℕ :=
  (ws.filter (fun w => pyIn w (pyLower message))).length

/-- Embedding of `analyze_sentiment`. -/
def analyze_sentiment (message : String) : String :=
  let positive_count := sentiment_count positive_words message
  let negative_count := sentiment_count negative_words message
  if positive_count > negative_count then "positive"
  else if negative_count > positive_count then "negative"
  else "neutral"

/-- The word set of a response, as built by `responses_too_similar`:
lowercase, split on whitespace, set semantics. -/
def response_word_set (response : String) : Finset String :=
  (pySplit (pyLower response)).toFinset

/-- Embedding of `responses_too_similar`: Jaccard-style overlap of the
two word sets compared against the 0.6 threshold (the Python float
constant 0.6 is the exact rational 3/5, and the ratios arising here are
exact in the model). -/
def responses_too_similar (response1 response2 : String) : Bool :=
  if response1 = "" || response2 = "" then false
  else
    let words1 := response_word_set response1
    let words2 := response_word_set response2
    let overlap := (words1 ∩ words2).card
    let total_unique := (words1 ∪ words2).card
    if total_unique = 0 then false
    else decide ((overlap : ℚ) / (total_unique : ℚ) > 0.6)


/-! ### `ai_model.py`: the interaction learner -/

/-- Embedding of `extract_message_intent` (first matching rule wins). -/
def extract_message_intent (message : String) : String :=
  let message_lower := pyLower message
  if pyIn ("?") message ||
      (["what", "how", "why", "when", "where", "who"].any (fun w => pyIn w message_lower)) then
    "question"
  else if ["hello", "hi", "hey", "good morning"].any (fun w => pyIn w message_lower) then
    "greeting"
  else if ["bye", "goodbye", "see you"].any (fun w => pyIn w message_lower) then
    "farewell"
  else if ["thank", "thanks", "appreciate"].any (fun w => pyIn w message_lower) then
    "gratitude"
  else if ["help", "assist", "support"].any (fun w => pyIn w message_lower) then
    "help_request"
  else if ["tell me", "explain", "describe"].any (fun w => pyIn w message_lower) then
    "information_request"
  else if pyIn ("!") message ||
      (["awesome", "amazing", "love", "excited"].any (fun w => pyIn w message_lower)) then
    "enthusiasm"
  else "general"

/-- The `if pattern_key not in learned_responses: create empty record`
step of `add_learned_pattern`. -/
def ensure_learned_key (kb : KnowledgeBase) (pattern_key intent : String) :
    KnowledgeBase :=
  match alistLookup kb.learned_responses pattern_key with
  | some _ => kb
  | none =>
    { kb with learned_responses :=
        alistInsert kb.learned_responses pattern_key ⟨[], 0, 0, intent⟩ }

/-- Embedding of `add_learned_pattern`: upsert the learned pattern keyed
by the intent and the first 30 characters of the message, appending the
response if it is not already recorded. -/
def add_learned_pattern (kb0 : KnowledgeBase) (user_message ai_response : String) :
    KnowledgeBase :=
  let intent := extract_message_intent user_message
  let pattern_key := intent ++ ":" ++ pySliceTo 30 user_message
  let kb := ensure_learned_key kb0 pattern_key intent
  match alistLookup kb.learned_responses pattern_key with
  | some pattern_data =>
    if pattern_data.responses.contains ai_response then kb
    else
      let pd : LearnedPattern :=
        { pattern_data with
          responses := pattern_data.responses ++ [ai_response],
          total_uses := pattern_data.total_uses + 1 }
      { kb with learned_responses := alistInsert kb.learned_responses pattern_key pd }
  | none => kb

/-- The `x = x[-10:] if len(x) > 10` truncation of the recent-data lists. -/
def truncate10 (l : List String) : List String :=
  if l.length > 10 then pyTakeLast 10 l else l

/-- The per-keyword topic update of `learn_from_interaction`. -/
def learn_topic_update (kb : KnowledgeBase) (user_message keyword : String) :
    KnowledgeBase :=
  match alistLookup kb.topic_knowledge keyword with
  | none =>
    let td : TopicRecord :=
      { mentions := 1, contexts := [user_message], facts := [],
        sentiment_associations := [analyze_sentiment user_message],
        question_patterns := [], response_effectiveness := [],
        confidence := none, source := none }
    { kb with topic_knowledge := alistInsert kb.topic_knowledge keyword td }
  | some topic_data =>
    let td := { topic_data with
      mentions := topic_data.mentions + 1,
      contexts := topic_data.contexts ++ [user_message] }
    let td := { td with
      sentiment_associations :=
        td.sentiment_associations ++ [analyze_sentiment user_message] }
    let td :=
      if pyIn ("?") user_message then
        { td with question_patterns := td.question_patterns ++ [user_message] }
      else td
    let td := { td with
      contexts := truncate10 td.contexts,
      sentiment_associations := truncate10 td.sentiment_associations,
      question_patterns := truncate10 td.question_patterns }
    { kb with topic_knowledge := alistInsert kb.topic_knowledge keyword td }

/-- Embedding of `learn_from_interaction`. -/
def learn_from_interaction (kb : KnowledgeBase) (user_message ai_response : String)
    (keywords : List String) : KnowledgeBase :=
  let kb := keywords.foldl (fun kb kw => learn_topic_update kb user_message kw) kb
  if user_message.length > 10 then add_learned_pattern kb user_message ai_response
  else kb

/-! ### `ai_model.py`: the in-memory knowledge stores -/

/-- A knowledge item produced by the web scraper. -/
structure ScrapedItem where
  topic : String
  content : String
  source : String
  confidence_score : ℚ
deriving Repr, DecidableEq

/-- The per-item body of the `store_knowledge_in_memory` loops (the
`knowledge_added` counter returned by the source only feeds logging
statistics and is not modelled). -/
def store_item_in_memory (kb : KnowledgeBase) (item : ScrapedItem) : KnowledgeBase :=
  match alistLookup kb.topic_knowledge item.topic with
  | none =>
    let td : TopicRecord :=
      { mentions := 1, contexts := [], facts := [item.content],
        sentiment_associations := [], question_patterns := [],
        response_effectiveness := [],
        confidence := some item.confidence_score, source := some item.source }
    { kb with topic_knowledge := alistInsert kb.topic_knowledge item.topic td }
  | some topic_data =>
    if topic_data.facts.contains item.content then kb
    else
      let td : TopicRecord := { topic_data with facts := topic_data.facts ++ [item.content] }
      { kb with topic_knowledge := alistInsert kb.topic_knowledge item.topic td }

/-- Embedding of `store_knowledge_in_memory`. -/
def store_knowledge_in_memory (kb : KnowledgeBase)
    (knowledge_by_topic : List (String × List ScrapedItem)) : KnowledgeBase :=
  knowledge_by_topic.foldl (fun kb p => p.2.foldl store_item_in_memory kb) kb

/-- Embedding of `store_learned_knowledge`. -/
def store_learned_knowledge (kb : KnowledgeBase) (topic content : String)
    (confidence : ℚ) (source : String) : KnowledgeBase :=
  let topic_lower := pyLower topic
  match alistLookup kb.topic_knowledge topic_lower with
  | none =>
    let td : TopicRecord :=
      { mentions := 1, contexts := [], facts := [content],
        sentiment_associations := [], question_patterns := [],
        response_effectiveness := [],
        confidence := some confidence, source := some source }
    { kb with topic_knowledge := alistInsert kb.topic_knowledge topic_lower td }
  | some topic_data =>
    if topic_data.facts.contains content then kb
    else
      let td : TopicRecord :=
        { topic_data with
          facts := topic_data.facts ++ [content],
          mentions := topic_data.mentions + 1 }
      { kb with topic_knowledge := alistInsert kb.topic_knowledge topic_lower td }

/-! ### Character facts -/

/-- Auxiliary fact: the image of the uppercase range under the +32 shift
lies outside the uppercase range. -/
theorem toLower_shift_out : ∀ n : ℕ, 65 ≤ n → n ≤ 90 →
    ¬((Char.ofNat (n + 32)).toNat ≥ 65 ∧ (Char.ofNat (n + 32)).toNat ≤ 90) := by
  intro n h1 h2
  interval_cases n <;> decide

/-- ASCII case folding is idempotent. -/
theorem toLower_idem (c : Char) : (Char.toLower c).toLower = Char.toLower c := by
  simp only [Char.toLower]
  by_cases h : c.toNat ≥ 65 ∧ c.toNat ≤ 90
  · rw [if_pos h, if_neg (toLower_shift_out c.toNat h.1 h.2)]
  · rw [if_neg h, if_neg h]

/-- Case folding a string twice equals case folding it once. -/
theorem pyLower_idem (s : String) : pyLower (pyLower s) = pyLower s := by
  unfold pyLower
  refine congrArg _ ?_
  simp only [List.map_map]
  exact List.map_congr_left (fun c _ => toLower_idem c)

/-- A string all of whose characters are fixed by case folding is fixed
by `pyLower`. -/
theorem pyLower_fixed_of_chars {s : String} (h : ∀ c ∈ s.data, Char.toLower c = c) :
    pyLower s = s := by
  unfold pyLower
  have hmap : s.data.map Char.toLower = s.data := by
    rw [List.map_congr_left h]
    exact List.map_id s.data
  cases s
  simp [hmap]

/-- Characters that are not uppercase letters are fixed by case folding. -/
theorem toLower_fixed_of_not_upper {c : Char}
    (h : ¬(c.toNat ≥ 65 ∧ c.toNat ≤ 90)) : Char.toLower c = c := by
  simp only [Char.toLower]
  rw [if_neg h]

/-! ### Claim C6: sentiment analysis -/

/-- C6: `analyze_sentiment` is a pure function of its input (immediate
for the embedding, which threads no state through it) whose value is
always one of positive/negative/neutral, and which returns positive
exactly when the count of matched fixed positive words strictly exceeds
the count of matched fixed negative words, negative exactly when the
negative count strictly exceeds the positive count, and neutral exactly
otherwise (that is, when the two counts are equal is false: neutral holds
iff neither count exceeds the other). -/
theorem analyze_sentiment_characterisation (message : String) :
    (analyze_sentiment message = "positive" ∨ analyze_sentiment message = "negative" ∨
      analyze_sentiment message = "neutral") ∧
    (analyze_sentiment message = "positive" ↔
      sentiment_count positive_words message > sentiment_count negative_words message) ∧
    (analyze_sentiment message = "negative" ↔
      sentiment_count negative_words message > sentiment_count positive_words message) ∧
    (analyze_sentiment message = "neutral" ↔
      ¬(sentiment_count positive_words message > sentiment_count negative_words message) ∧
      ¬(sentiment_count negative_words message > sentiment_count positive_words message)) := by
  unfold analyze_sentiment
  simp only []
  split_ifs with h1 h2
  · refine ⟨Or.inl rfl, ?_, ?_, ?_⟩ <;> simp_all <;> omega
  · refine ⟨Or.inr (Or.inl rfl), ?_, ?_, ?_⟩ <;> simp_all
  · refine ⟨Or.inr (Or.inr rfl), ?_, ?_, ?_⟩ <;> simp_all

/-! ### Claim C4: the similarity filter -/

/-- C4 counterexample: the one-character whitespace string is non-empty,
yet `responses_too_similar` on two copies of it returns false (both word
sets are empty, so the union-cardinality guard fires), refuting the
claim that the test is true on every non-empty string. -/
theorem responses_too_similar_whitespace_refutes :
    (" " : String) ≠ "" ∧ responses_too_similar (" ") (" ") = false := by
  constructor
  · decide
  · rfl

/-- C4 amended: the self-similarity law holds for every string with at
least one whitespace-separated word (rather than every non-empty
string); the empty first argument always yields false; and on non-empty
arguments the test returns true exactly when the word-set union is
non-empty and the Jaccard overlap strictly exceeds 3/5 (the Python
float literal 0.6). -/
theorem responses_too_similar_characterisation (a x : String) :
    (pySplit (pyLower a) ≠ [] → responses_too_similar a a = true) ∧
    (responses_too_similar ("") x = false) ∧
    (a ≠ "" → x ≠ "" →
      (responses_too_similar a x = true ↔
        (response_word_set a ∪ response_word_set x).card ≠ 0 ∧
          (((response_word_set a ∩ response_word_set x).card : ℚ) /
            ((response_word_set a ∪ response_word_set x).card : ℚ) > 3 / 5))) := by
  refine ⟨?_, ?_, ?_⟩
  · intro htok
    have hne : a ≠ "" := by
      intro h
      rw [h] at htok
      exact htok rfl
    have hcard : (response_word_set a).card ≠ 0 := by
      rcases List.exists_mem_of_ne_nil _ htok with ⟨t, ht⟩
      exact Nat.pos_iff_ne_zero.mp
        (Finset.card_pos.mpr ⟨t, List.mem_toFinset.mpr ht⟩)
    have key : responses_too_similar a a =
        (if (response_word_set a ∪ response_word_set a).card = 0 then false
         else decide (((response_word_set a ∩ response_word_set a).card : ℚ) /
            ((response_word_set a ∪ response_word_set a).card : ℚ) > 0.6)) := by
      unfold responses_too_similar
      rw [if_neg (by simp [hne])]
    rw [key, Finset.inter_self, Finset.union_self, if_neg hcard,
      div_self (by exact_mod_cast hcard)]
    simp only [decide_eq_true_eq]
    norm_num
  · unfold responses_too_similar
    simp
  · intro ha hx
    have key : responses_too_similar a x =
        (if (response_word_set a ∪ response_word_set x).card = 0 then false
         else decide (((response_word_set a ∩ response_word_set x).card : ℚ) /
            ((response_word_set a ∪ response_word_set x).card : ℚ) > 0.6)) := by
      unfold responses_too_similar
      rw [if_neg (by simp [ha, hx])]
    rw [key]
    by_cases htot : (response_word_set a ∪ response_word_set x).card = 0
    · rw [if_pos htot]
      simp [htot]
    · rw [if_neg htot]
      rw [show (0.6 : ℚ) = 3 / 5 from by norm_num]
      simp only [decide_eq_true_eq, gt_iff_lt]
      constructor
      · intro h
        exact ⟨htot, h⟩
      · intro h
        exact h.2

/-- C4 witness: instantiation of the amended law at concrete inputs. -/
theorem responses_too_similar_characterisation_witness :
    responses_too_similar ("a b") ("a b") = true ∧
    responses_too_similar ("") ("a c") = false ∧
    (responses_too_similar ("a b") ("a c") = true ↔
      (response_word_set ("a b") ∪ response_word_set ("a c")).card ≠ 0 ∧
        (((response_word_set ("a b") ∩ response_word_set ("a c")).card : ℚ) /
          ((response_word_set ("a b") ∪ response_word_set ("a c")).card : ℚ) > 3 / 5)) :=
  ⟨(responses_too_similar_characterisation ("a b") ("a b")).1 (by decide),
   (responses_too_similar_characterisation ("a b") ("a c")).2.1,
   (responses_too_similar_characterisation ("a b") ("a c")).2.2 (by decide) (by decide)⟩

/-! ### Language inversions for the special patterns -/

/-- Inversion for character classes. -/
theorem accepts_cls_inv {p : Char → Bool} {u : List Char}
    (h : Accepts (.cls p) u) : ∃ c, u = [c] ∧ p c = true := by
  cases h
  exact ⟨_, rfl, by assumption⟩

/-- Inversion for concatenation. -/
theorem accepts_seq_inv {r1 r2 : RE} {u : List Char}
    (h : Accepts (.seq r1 r2) u) :
    ∃ v w, u = v ++ w ∧ Accepts r1 v ∧ Accepts r2 w := by
  cases h
  exact ⟨_, _, rfl, by assumption, by assumption⟩

/-- Inversion for the word boundary. -/
theorem accepts_wb_inv {u : List Char} (h : Accepts .wb u) : u = [] := by
  cases h
  rfl

/-- Inversion for the empty pattern. -/
theorem accepts_eps_inv {u : List Char} (h : Accepts .eps u) : u = [] := by
  cases h
  rfl

/-- Inversion for alternation. -/
theorem accepts_alt_inv {r1 r2 : RE} {u : List Char}
    (h : Accepts (.alt r1 r2) u) : Accepts r1 u ∨ Accepts r2 u := by
  cases h
  · exact Or.inl (by assumption)
  · exact Or.inr (by assumption)

/-- A character property preserved by a pattern lifts through greedy
repetition of that pattern. -/
theorem accepts_star_chars {r : RE} {p : Char → Prop}
    (hr : ∀ v, Accepts r v → ∀ c ∈ v, p c) :
    ∀ u, Accepts (.star r) u → ∀ c ∈ u, p c := by
  intro u h
  generalize hE : RE.star r = q at h
  induction h with
  | eps => exact absurd hE (by simp)
  | cls _ => exact absurd hE (by simp)
  | wb => exact absurd hE (by simp)
  | seq _ _ _ _ => exact absurd hE (by simp)
  | altL _ _ => exact absurd hE (by simp)
  | altR _ _ => exact absurd hE (by simp)
  | starLNil => exact absurd hE (by simp)
  | starLCons _ _ _ _ => exact absurd hE (by simp)
  | starNil => simp
  | starCons h1 h2 ih1 ih2 =>
    cases hE
    intro c hc
    rcases List.mem_append.mp hc with hc | hc
    · exact hr _ h1 c hc
    · exact ih2 rfl c hc

/-- A character property preserved by a pattern lifts through lazy
repetition of that pattern. -/
theorem accepts_starL_chars {r : RE} {p : Char → Prop}
    (hr : ∀ v, Accepts r v → ∀ c ∈ v, p c) :
    ∀ u, Accepts (.starL r) u → ∀ c ∈ u, p c := by
  intro u h
  generalize hE : RE.starL r = q at h
  induction h with
  | eps => exact absurd hE (by simp)
  | cls _ => exact absurd hE (by simp)
  | wb => exact absurd hE (by simp)
  | seq _ _ _ _ => exact absurd hE (by simp)
  | altL _ _ => exact absurd hE (by simp)
  | altR _ _ => exact absurd hE (by simp)
  | starNil => exact absurd hE (by simp)
  | starCons _ _ _ _ => exact absurd hE (by simp)
  | starLNil => simp
  | starLCons h1 h2 ih1 ih2 =>
    cases hE
    intro c hc
    rcases List.mem_append.mp hc with hc | hc
    · exact hr _ h1 c hc
    · exact ih2 rfl c hc

/-- Inversion for case-insensitive literals: the consumed characters
fold to the literal. -/
theorem accepts_reLitCI_inv : ∀ (w : List Char) (u : List Char),
    Accepts (reLitCI w) u → u.map Char.toLower = w := by
  intro w
  induction w with
  | nil =>
    intro u h
    rw [accepts_eps_inv h]
    rfl
  | cons c w ih =>
    intro u h
    obtain ⟨v1, v2, rfl, h1, h2⟩ := accepts_seq_inv h
    obtain ⟨d, rfl, hd⟩ := accepts_cls_inv h1
    simp only [List.map_append, List.map_cons, List.map_nil]
    have hd2 : Char.toLower d = c := by simpa [reCharCI] using hd
    rw [hd2, ih v2 h2]
    rfl

/-- Every match of the `K-On` pattern contains a hyphen. -/
theorem pattern_kon_has_hyphen {u : List Char} (h : Accepts pattern_kon u) :
    '-' ∈ u := by
  obtain ⟨a, b, rfl, h6, _⟩ := accepts_seq_inv h
  obtain ⟨c, d, rfl, h5, _⟩ := accepts_seq_inv h6
  obtain ⟨e, f, rfl, h4, _⟩ := accepts_seq_inv h5
  obtain ⟨i, j, rfl, h3, _⟩ := accepts_seq_inv h4
  obtain ⟨k, l, rfl, h2, hcls⟩ := accepts_seq_inv h3
  obtain ⟨ch, rfl, hch⟩ := accepts_cls_inv hcls
  have hch2 : ch = '-' := by simpa [reChar] using hch
  subst hch2
  simp

/-- Every match of the `Bocchi...Rock` pattern case folds to a string
starting with the six characters of `bocchi`. -/
theorem pattern_bocchi_prefix {u : List Char} (h : Accepts pattern_bocchi u) :
    ∃ t, u.map Char.toLower = ['b', 'o', 'c', 'c', 'h', 'i'] ++ t := by
  obtain ⟨a, b, rfl, h4, _⟩ := accepts_seq_inv h
  obtain ⟨c, d, rfl, h3, _⟩ := accepts_seq_inv h4
  obtain ⟨e, f, rfl, h2, _⟩ := accepts_seq_inv h3
  obtain ⟨g2, i, rfl, hwb, hlit⟩ := accepts_seq_inv h2
  rw [accepts_wb_inv hwb]
  have hb := accepts_reLitCI_inv _ _ hlit
  refine ⟨f.map Char.toLower ++ d.map Char.toLower ++ b.map Char.toLower, ?_⟩
  simp [hb]

/-- Every match of the hyphen/exclamation pattern contains `!` or `-`. -/
theorem pattern_hyphen_excl_special {u : List Char}
    (h : Accepts pattern_hyphen_excl u) : '!' ∈ u ∨ '-' ∈ u := by
  obtain ⟨a, b, rfl, h4, _⟩ := accepts_seq_inv h
  obtain ⟨c, d, rfl, h3, _⟩ := accepts_seq_inv h4
  obtain ⟨e, f, rfl, h2, hcls⟩ := accepts_seq_inv h3
  obtain ⟨ch, rfl, hch⟩ := accepts_cls_inv hcls
  have hch2 : ch = '!' ∨ ch = '-' := by simpa [reOneOf] using hch
  rcases hch2 with rfl | rfl
  · exact Or.inl (by simp)
  · exact Or.inr (by simp)

/-- Every match of the capitalised-hyphenated pattern contains `-`. -/
theorem pattern_cap_hyphen_has_hyphen {u : List Char}
    (h : Accepts pattern_cap_hyphen u) : '-' ∈ u := by
  obtain ⟨a, b, rfl, h6, _⟩ := accepts_seq_inv h
  obtain ⟨c, d, rfl, h5, _⟩ := accepts_seq_inv h6
  obtain ⟨e, f, rfl, h4, _⟩ := accepts_seq_inv h5
  obtain ⟨i, j, rfl, h3, hcls⟩ := accepts_seq_inv h4
  obtain ⟨ch, rfl, hch⟩ := accepts_cls_inv hcls
  have hch2 : ch = '-' := by simpa [reChar] using hch
  subst hch2
  simp

/-- A list is a `isPrefixB`-prefix of itself followed by anything. -/
theorem isPrefixB_append [DecidableEq α] : ∀ (w t : List α), isPrefixB w (w ++ t) = true := by
  intro w t
  induction w with
  | nil => rfl
  | cons a as ih => simp [isPrefixB, ih]

/-- Facts about the stop-word table, checked by evaluation: no stop word
contains `!` or `-`, none starts with `bocchi`, and all are fixed by
case folding. -/
theorem stop_words_plain : ∀ w ∈ stop_words,
    '!' ∉ w.data ∧ '-' ∉ w.data ∧
    isPrefixB (['b', 'o', 'c', 'c', 'h', 'i']) w.data = false ∧
    pyLower w = w := by decide

/-- Every string found by `reFindall` is in the language of the pattern
and occurs contiguously in the input. -/
theorem reFindall_sound {r : RE} {s kw : String} (h : kw ∈ reFindall r s) :
    Accepts r kw.data ∧ kw.data <:+: s.data := by
  unfold reFindall at h
  obtain ⟨u, hu, rfl⟩ := List.mem_map.mp h
  have hs := scanAll_sound (s.data.length + 1) r none s.data u hu
  simpa [List.asString] using hs

/-- No token contributed by the special-pattern branch is a stop word:
the lowercased forms keep a hyphen or exclamation mark or the `bocchi`
prefix, and an original-case form is added only when it is not fixed by
case folding, which every stop word is. -/
theorem special_tokens_not_stop {m : String} :
    ∀ k ∈ special_keyword_tokens m, k ∉ stop_words := by
  intro k hk hstop
  unfold special_keyword_tokens at hk
  obtain ⟨kw, hkw, hkin⟩ := List.mem_flatMap.mp hk
  obtain ⟨p, hp, hkwf⟩ := List.mem_flatMap.mp hkw
  have hacc := (reFindall_sound hkwf).1
  have hfacts := stop_words_plain k hstop
  have hlowcase : k = pyLower kw ∨ (k = kw ∧ pyLower kw ≠ kw) := by
    by_cases hc : pyLower kw ≠ kw
    · rw [if_pos hc] at hkin
      simp only [List.mem_cons, List.mem_singleton, List.not_mem_nil, or_false] at hkin
      rcases hkin with h | h
      · exact Or.inl h
      · exact Or.inr ⟨h, hc⟩
    · rw [if_neg hc] at hkin
      simp only [List.mem_singleton] at hkin
      exact Or.inl hkin
  rcases hlowcase with rfl | ⟨rfl, hne⟩
  · have hdata : (pyLower kw).data = kw.data.map Char.toLower := rfl
    have hp4 : p = pattern_kon ∨ p = pattern_bocchi ∨ p = pattern_hyphen_excl ∨
        p = pattern_cap_hyphen := by
      simpa [special_patterns] using hp
    have hyphen_case : '-' ∈ kw.data → False := by
      intro hmem
      have : '-' ∈ (pyLower kw).data := by
        rw [hdata]
        exact List.mem_map.mpr ⟨'-', hmem, by decide⟩
      exact hfacts.2.1 this
    have excl_case : '!' ∈ kw.data → False := by
      intro hmem
      have : '!' ∈ (pyLower kw).data := by
        rw [hdata]
        exact List.mem_map.mpr ⟨'!', hmem, by decide⟩
      exact hfacts.1 this
    rcases hp4 with rfl | rfl | rfl | rfl
    · exact hyphen_case (pattern_kon_has_hyphen hacc)
    · obtain ⟨t, ht⟩ := pattern_bocchi_prefix hacc
      have : isPrefixB (['b', 'o', 'c', 'c', 'h', 'i']) (pyLower kw).data = true := by
        rw [hdata, ht]
        exact isPrefixB_append _ _
      rw [hfacts.2.2.1] at this
      cases this
    · rcases pattern_hyphen_excl_special hacc with hmem | hmem
      · exact excl_case hmem
      · exact hyphen_case hmem
    · exact hyphen_case (pattern_cap_hyphen_has_hyphen hacc)
  · exact hne (hfacts.2.2.2)

/-! ### Claim C5: keyword extraction -/

/-- C5: keyword extraction is deterministic (the embedding is a pure
function, so two runs on the same message are literally the same list
and in particular the same set), the result never contains a stop word,
every returned token that is not contributed by the special-pattern
branch has length at least three, and the result holds no duplicates. -/
theorem extract_keywords_props (m : String) :
    extract_keywords m = extract_keywords m ∧
    (extract_keywords m).Nodup ∧
    (∀ k ∈ extract_keywords m, k ∉ stop_words) ∧
    (∀ k ∈ extract_keywords m, k ∈ special_keyword_tokens m ∨ 3 ≤ k.length) := by
  refine ⟨rfl, List.nodup_dedup _, ?_, ?_⟩
  · intro k hk
    unfold extract_keywords at hk
    rw [List.mem_dedup] at hk
    rcases List.mem_append.mp hk with hk | hk
    · obtain ⟨hkw, hcond⟩ := List.mem_filter.mp hk
      simp only [Bool.and_eq_true, Bool.not_eq_true', decide_eq_true_eq] at hcond
      intro hstop
      have : stop_words.contains k = true := List.elem_eq_true_of_mem hstop
      rw [hcond.1] at this
      cases this
    · exact special_tokens_not_stop k hk
  · intro k hk
    unfold extract_keywords at hk
    rw [List.mem_dedup] at hk
    rcases List.mem_append.mp hk with hk | hk
    · right
      obtain ⟨_, hcond⟩ := List.mem_filter.mp hk
      simp only [Bool.and_eq_true, Bool.not_eq_true', decide_eq_true_eq] at hcond
      omega
    · exact Or.inl hk

/-- C5 witness: the properties instantiated on a concrete message and
concrete extracted keywords. -/
theorem extract_keywords_props_witness :
    ("love" : String) ∉ stop_words ∧
    ("k-on" ∈ special_keyword_tokens ("I love K-On") ∨ 3 ≤ ("k-on" : String).length) :=
  ⟨(extract_keywords_props ("I love K-On")).2.2.1 ("love") (by decide),
   (extract_keywords_props ("I love K-On")).2.2.2 ("k-on") (by decide)⟩

/-! ### Claim C8: no duplicate facts per topic -/

/-- The mutating knowledge-store operations named by the claim. -/
inductive KnowledgeOp : Type where
  | learn (user_message ai_response : String) (keywords : List String) : KnowledgeOp
  | storeMemory (knowledge_by_topic : List (String × List ScrapedItem)) : KnowledgeOp
  | storeLearned (topic content : String) (confidence : ℚ) (source : String) : KnowledgeOp

/-- Apply one operation to the knowledge base. -/
def applyKnowledgeOp (kb : KnowledgeBase) : KnowledgeOp → KnowledgeBase
  | .learn m r kws => learn_from_interaction kb m r kws
  | .storeMemory kbt => store_knowledge_in_memory kb kbt
  | .storeLearned t c conf s => store_learned_knowledge kb t c conf s

/-- The invariant: every topic record holds a duplicate-free facts list. -/
def FactsNodup (kb : KnowledgeBase) : Prop :=
  ∀ e ∈ kb.topic_knowledge, e.2.facts.Nodup

instance : DecidablePred FactsNodup := fun kb =>
  inferInstanceAs (Decidable (∀ e ∈ kb.topic_knowledge, e.2.facts.Nodup))

/-- Elements after a dictionary assignment are old elements or the new
binding. -/
theorem alistInsert_mem {l : List (String × α)} {k : String} {v : α} {e : String × α}
    (h : e ∈ alistInsert l k v) : e ∈ l ∨ e = (k, v) := by
  induction l with
  | nil => exact Or.inr (List.mem_singleton.mp h)
  | cons hd t ih =>
    obtain ⟨a, b⟩ := hd
    rw [show alistInsert ((a, b) :: t) k v =
        (if a == k then (k, v) :: t else (a, b) :: alistInsert t k v)
      from rfl] at h
    split at h
    · rcases List.mem_cons.mp h with rfl | h
      · exact Or.inr rfl
      · exact Or.inl (List.mem_cons_of_mem (a, b) h)
    · rcases List.mem_cons.mp h with rfl | h
      · exact Or.inl (List.mem_cons_self (a, b) t)
      · rcases ih h with h2 | h2
        · exact Or.inl (List.mem_cons_of_mem (a, b) h2)
        · exact Or.inr h2

/-- A property of all bindings survives a dictionary assignment whose
new binding has it. -/
theorem alistInsert_forall {P : String × α → Prop} {l : List (String × α)} {k : String}
    {v : α} (hl : ∀ e ∈ l, P e) (hv : P (k, v)) : ∀ e ∈ alistInsert l k v, P e := by
  intro e he
  rcases alistInsert_mem he with h | rfl
  · exact hl e h
  · exact hv

/-- A successful dictionary lookup returns the value of some binding. -/
theorem alistLookup_mem {l : List (String × α)} {k : String} {v : α}
    (h : alistLookup l k = some v) : ∃ k2, (k2, v) ∈ l := by
  unfold alistLookup at h
  cases hf : l.find? (fun p => p.1 == k) with
  | none => rw [hf] at h; cases h
  | some p =>
    rw [hf] at h
    have h2 : p.2 = v := by simpa using h
    refine ⟨p.1, ?_⟩
    have hp := List.mem_of_find?_eq_some hf
    rw [← h2]
    exact hp

/-- `add_learned_pattern` never touches the topic table. -/
theorem ensure_learned_key_topic (kb : KnowledgeBase) (pattern_key intent : String) :
    (ensure_learned_key kb pattern_key intent).topic_knowledge = kb.topic_knowledge := by
  unfold ensure_learned_key
  split
  · rfl
  · rfl

theorem add_learned_pattern_topic (kb : KnowledgeBase) (m r : String) :
    (add_learned_pattern kb m r).topic_knowledge = kb.topic_knowledge := by
  unfold add_learned_pattern
  dsimp only
  split
  · split
    · exact ensure_learned_key_topic kb _ _
    · exact ensure_learned_key_topic kb _ _
  · exact ensure_learned_key_topic kb _ _

/-- One step of the learner keeps facts lists duplicate-free: a fresh
record starts with no facts and an update leaves the facts untouched. -/
theorem FactsNodup_learn_topic_update {kb : KnowledgeBase} (m kw : String)
    (h : FactsNodup kb) : FactsNodup (learn_topic_update kb m kw) := by
  unfold learn_topic_update
  cases hl : alistLookup kb.topic_knowledge kw with
  | none =>
    intro e he
    simp only at he
    refine alistInsert_forall h ?_ e he
    simp
  | some topic_data =>
    have hnd : topic_data.facts.Nodup := by
      obtain ⟨k2, hk2⟩ := alistLookup_mem hl
      exact h (k2, topic_data) hk2
    intro e he
    simp only at he
    refine alistInsert_forall h ?_ e he
    by_cases hq : pyIn ("?") m = true <;> simp [hq, hnd]

/-- `learn_from_interaction` keeps facts lists duplicate-free. -/
theorem FactsNodup_learn {kb : KnowledgeBase} (m r : String) (kws : List String)
    (h : FactsNodup kb) : FactsNodup (learn_from_interaction kb m r kws) := by
  unfold learn_from_interaction
  simp only []
  have hfold : ∀ (kws2 : List String) (kb2 : KnowledgeBase), FactsNodup kb2 →
      FactsNodup (kws2.foldl (fun kb3 kw => learn_topic_update kb3 m kw) kb2) := by
    intro kws2
    induction kws2 with
    | nil => intro kb2 h2; exact h2
    | cons a as ih =>
      intro kb2 h2
      exact ih _ (FactsNodup_learn_topic_update m a h2)
  split
  · intro e he
    rw [add_learned_pattern_topic] at he
    exact hfold kws kb h e he
  · exact hfold kws kb h

/-- Appending a genuinely new fact preserves freedom from duplicates. -/
theorem nodup_append_new {l : List String} {c : String} (h : l.Nodup)
    (hc : l.contains c = false) : (l ++ [c]).Nodup := by
  rw [List.nodup_append]
  refine ⟨h, List.nodup_singleton c, ?_⟩
  intro x hx hxc
  rw [List.mem_singleton.mp hxc] at hx
  have h2 := List.elem_eq_true_of_mem hx
  exact Bool.noConfusion (h2.symm.trans hc)

/-- `store_item_in_memory` keeps facts lists duplicate-free. -/
theorem FactsNodup_store_item {kb : KnowledgeBase} (item : ScrapedItem)
    (h : FactsNodup kb) : FactsNodup (store_item_in_memory kb item) := by
  unfold store_item_in_memory
  cases hl : alistLookup kb.topic_knowledge item.topic with
  | none =>
    dsimp only
    intro e he
    simp only at he
    refine alistInsert_forall h ?_ e he
    simp
  | some topic_data =>
    have hnd : topic_data.facts.Nodup := by
      obtain ⟨k2, hk2⟩ := alistLookup_mem hl
      exact h (k2, topic_data) hk2
    dsimp only
    by_cases hg : topic_data.facts.contains item.content = true
    · rw [if_pos hg]
      exact h
    · rw [if_neg hg]
      intro e he
      simp only at he
      refine alistInsert_forall h ?_ e he
      exact nodup_append_new hnd (Bool.eq_false_iff.mpr hg)

/-- `store_knowledge_in_memory` keeps facts lists duplicate-free. -/
theorem FactsNodup_store_memory {kb : KnowledgeBase}
    (kbt : List (String × List ScrapedItem)) (h : FactsNodup kb) :
    FactsNodup (store_knowledge_in_memory kb kbt) := by
  unfold store_knowledge_in_memory
  induction kbt generalizing kb with
  | nil => exact h
  | cons p ps ih =>
    simp only [List.foldl_cons]
    refine ih ?_
    have hinner : ∀ (items : List ScrapedItem) (kb2 : KnowledgeBase), FactsNodup kb2 →
        FactsNodup (items.foldl store_item_in_memory kb2) := by
      intro items
      induction items with
      | nil => intro kb2 h2; exact h2
      | cons a as ih2 =>
        intro kb2 h2
        exact ih2 _ (FactsNodup_store_item a h2)
    exact hinner p.2 kb h

/-- `store_learned_knowledge` keeps facts lists duplicate-free. -/
theorem FactsNodup_store_learned {kb : KnowledgeBase} (t c : String) (conf : ℚ)
    (s : String) (h : FactsNodup kb) :
    FactsNodup (store_learned_knowledge kb t c conf s) := by
  unfold store_learned_knowledge
  dsimp only
  cases hl : alistLookup kb.topic_knowledge (pyLower t) with
  | none =>
    dsimp only
    intro e he
    simp only at he
    refine alistInsert_forall h ?_ e he
    simp
  | some topic_data =>
    have hnd : topic_data.facts.Nodup := by
      obtain ⟨k2, hk2⟩ := alistLookup_mem hl
      exact h (k2, topic_data) hk2
    dsimp only
    by_cases hg : topic_data.facts.contains c = true
    · rw [if_pos hg]
      exact h
    · rw [if_neg hg]
      intro e he
      simp only at he
      refine alistInsert_forall h ?_ e he
      exact nodup_append_new hnd (Bool.eq_false_iff.mpr hg)

/-- Every single operation preserves the invariant. -/
theorem FactsNodup_step {kb : KnowledgeBase} (op : KnowledgeOp) (h : FactsNodup kb) :
    FactsNodup (applyKnowledgeOp kb op) := by
  cases op with
  | learn m r kws => exact FactsNodup_learn m r kws h
  | storeMemory kbt => exact FactsNodup_store_memory kbt h
  | storeLearned t c conf s => exact FactsNodup_store_learned t c conf s h

/-- C8: starting from the initial knowledge base, after any sequence of
`learn_from_interaction`, `store_knowledge_in_memory` and
`store_learned_knowledge` operations, no topic record contains a
duplicate fact string. -/
theorem facts_nodup_after_ops (ops : List KnowledgeOp) :
    FactsNodup (ops.foldl applyKnowledgeOp create_initial_knowledge_base) := by
  have hbase : FactsNodup create_initial_knowledge_base := by
    intro e he
    cases he
  have hfold : ∀ (ops2 : List KnowledgeOp) (kb : KnowledgeBase), FactsNodup kb →
      FactsNodup (ops2.foldl applyKnowledgeOp kb) := by
    intro ops2
    induction ops2 with
    | nil => intro kb h; exact h
    | cons a as ih =>
      intro kb h
      exact ih _ (FactsNodup_step a h)
  exact hfold ops _ hbase

/-! ### `web_scraper.py`: patterns and scoring -/

/-- Case-insensitive literal from a string (given in lowercase). -/
def litCI (s : String) : RE := reLitCI s.data

/-- Case-sensitive literal from a string. -/
def litCS (s : String) : RE := reLit s.data

/-- The class `\d`. -/
def reDigit : RE := .cls Char.isDigit

/-- The class `\s` (ASCII model). -/
def reWs : RE := .cls Char.isWhitespace

/-- The class `\w` as a pattern. -/
def reWordC : RE := .cls wordChar

/-- Topic/sentence normalisation `x.replace("-", "").replace("!", "").lower()`
used for main-topic containment tests. -/
def clean_ti (s : String) : String := pyLower (pyDropChar '!' (pyDropChar '-' s))

/-- Python truthiness of an optional string (`None` and the empty string
are falsy). -/
def pyTruthy (o : Option String) : Bool :=
  match o with
  | none => false
  | some s => s ≠ ""

/-- The main-topic containment test shared by `is_relevant_sentence` and
`calculate_confidence_score`: the topic is truthy and its cleaned form
occurs in the cleaned sentence. -/
def mentions_main_topic (sentence : String) (main_topic : Option String) : Bool :=
  match main_topic with
  | none => false
  | some t => t ≠ "" && pyIn (clean_ti t) (clean_ti sentence)

/-- `\b(research|study|according to|published|peer-reviewed)\b` under
`re.IGNORECASE`. -/
def citation_pattern : RE :=
  reSeqs [.wb,
    reAlts [litCI ("research"), litCI ("study"), litCI ("according to"),
      litCI ("published"), litCI ("peer-reviewed")], .wb]

/-- `\b\d{4}\b`. -/
def year_pattern : RE := reSeqs [.wb, reDigit, reDigit, reDigit, reDigit, .wb]

/-- `\b\d+\.?\d*\s*(percent|%|million|billion)\b` (case sensitive). -/
def quantity_pattern : RE :=
  reSeqs [.wb, rePlus reDigit, reOpt (reChar '.'), .star reDigit, .star reWs,
    reAlts [litCS ("percent"), reChar '%', litCS ("million"), litCS ("billion")], .wb]

/-- The number/date condition of `calculate_confidence_score`. -/
def number_pattern : RE := .alt year_pattern quantity_pattern

/-- `\b(anime|manga|series|episode|character|aired|produced|studio)\b`
under `re.IGNORECASE`. -/
def media_pattern : RE :=
  reSeqs [.wb,
    reAlts [litCI ("anime"), litCI ("manga"), litCI ("series"), litCI ("episode"),
      litCI ("character"), litCI ("aired"), litCI ("produced"), litCI ("studio")], .wb]

/-- `\b(might|maybe|possibly|perhaps|could be)\b` under `re.IGNORECASE`. -/
def hedge_pattern : RE :=
  reSeqs [.wb,
    reAlts [litCI ("might"), litCI ("maybe"), litCI ("possibly"), litCI ("perhaps"),
      litCI ("could be")], .wb]

/-- Embedding of `calculate_confidence_score` (floats as exact
rationals). -/
def calculate_confidence_score (sentence : String) (main_topic : Option String) : ℚ :=
  let score : ℚ := 0.5
  let score := if mentions_main_topic sentence main_topic then score + 0.3 else score
  let score := if reSearch citation_pattern sentence then score + 0.2 else score
  let score := if reSearch number_pattern sentence then score + 0.1 else score
  let score := if reSearch media_pattern sentence then score + 0.2 else score
  let score := if reSearch hedge_pattern sentence then score - 0.2 else score
  max 0.1 (min 1.0 score)

/-! ### Claim C7: the confidence score -/

/-- The score of the Web Knowledge Extractor as the specification words
it: base 0.5, plus 0.3 for mentioning the main topic, 0.2 for
citation-style language, 0.1 for a four-digit year or percentage, 0.2
for media-domain vocabulary, minus 0.2 for hedging language, the sum
clamped to the interval from 0.1 to 1.0. -/
def confidence_score_spec (sentence : String) (main_topic : Option String) : ℚ :=
  max (1 / 10) (min 1
    (1 / 2 + (if mentions_main_topic sentence main_topic then 3 / 10 else 0)
      + (if reSearch citation_pattern sentence then 1 / 5 else 0)
      + (if reSearch number_pattern sentence then 1 / 10 else 0)
      + (if reSearch media_pattern sentence then 1 / 5 else 0)
      - (if reSearch hedge_pattern sentence then 1 / 5 else 0)))

/-- C7: for every sentence and optional main topic, the computed
confidence score equals the additive clamped formula of the
specification, and it always lies in the interval from 0.1 to 1.0. -/
theorem calculate_confidence_score_clamped (sentence : String)
    (main_topic : Option String) :
    calculate_confidence_score sentence main_topic =
      confidence_score_spec sentence main_topic ∧
    1 / 10 ≤ calculate_confidence_score sentence main_topic ∧
    calculate_confidence_score sentence main_topic ≤ 1 := by
  have hspec : calculate_confidence_score sentence main_topic =
      confidence_score_spec sentence main_topic := by
    unfold calculate_confidence_score confidence_score_spec
    split_ifs <;> norm_num
  refine ⟨hspec, ?_, ?_⟩
  · unfold calculate_confidence_score
    calc (1 / 10 : ℚ) = 0.1 := by norm_num
    _ ≤ _ := le_max_left _ _
  · unfold calculate_confidence_score
    refine max_le (by norm_num) ?_
    exact le_trans (min_le_left _ _) (by norm_num)

/-! ### `web_scraper.py`: topic detection and sentence extraction -/

/-- Worker for the Python `str.split(sub)`: fuel-bounded scanning for
non-overlapping occurrences of the separator. -/
def pySplitSubGo (sep : List Char) : ℕ → List Char → List Char → List (List Char)
  | 0, s, acc => [acc.reverse ++ s]
  | _ + 1, [], acc => [acc.reverse]
  | fuel + 1, c :: rest, acc =>
    if isPrefixB sep (c :: rest) && !sep.isEmpty then
      acc.reverse :: pySplitSubGo sep fuel ((c :: rest).drop sep.length) []
    else pySplitSubGo sep fuel rest (c :: acc)

/-- The Python idiom `s.split(sep)[-1]`: the segment after the last
occurrence of the separator. -/
def pySplitLast (sep s : String) : String :=
  ⟨(pySplitSubGo sep.data (s.data.length + 1) s.data []).getLastD []⟩

/-- Worker for the Python `str.replace(pat, repl)` with a multi-character
pattern: fuel-bounded left-to-right non-overlapping replacement. -/
def pyReplaceSubGo (pat repl : List Char) : ℕ → List Char → List Char
  | 0, s => s
  | _ + 1, [] => []
  | fuel + 1, c :: rest =>
    if isPrefixB pat (c :: rest) && !pat.isEmpty then
      repl ++ pyReplaceSubGo pat repl fuel ((c :: rest).drop pat.length)
    else c :: pyReplaceSubGo pat repl fuel rest

/-- The Python `str.replace` with string arguments. -/
def pyReplaceSub (pat repl s : String) : String :=
  ⟨pyReplaceSubGo pat.data repl.data (s.data.length + 1) s.data⟩

/-- The continuation `(?:\s+is|\s+was|\s+are)` of the title pattern
(under `re.IGNORECASE`). -/
def ws_is_was_are : RE :=
  .seq (rePlus reWs) (reAlts [litCI ("is"), litCI ("was"), litCI ("are")])

/-- Matcher for the anchored non-greedy title pattern
`^([^.!?]+?)(?:\s+is|\s+was|\s+are)`: extend the captured prefix one
character at a time (each character outside `.!?`) and stop as soon as
the continuation matches, returning the shortest such prefix. -/
def findTitleGo : List Char → List Char → Option (List Char)
  | _, [] => none
  | accRev, c :: rest =>
    if c = '.' || c = '!' || c = '?' then none
    else
      if !(reMatch (rest.length + 1) ws_is_was_are none rest).isEmpty then
        some (c :: accRev).reverse
      else findTitleGo (c :: accRev) rest

/-- Matcher for `re.search` of the quoted-title pattern `"([^"]+)"`: the
first quote pair enclosing a non-empty run of non-quote characters. -/
def findQuotedGo : List Char → Option (List Char)
  | [] => none
  | c :: rest =>
    if c = '\x22' then
      let content := rest.takeWhile (fun x => x ≠ '\x22')
      match rest.drop content.length with
      | _ :: _ => if content = [] then findQuotedGo rest else some content
      | [] => none
    else findQuotedGo rest

/-- Embedding of `detect_main_topic`. -/
def detect_main_topic (text : String) (source_url : Option String) : Option String :=
  if (match source_url with
      | some u => pyIn ("wikipedia.org/wiki/") u
      | none => false) then
    let topic := pySplitLast ("/wiki/") (source_url.getD (""))
    let topic := pyReplaceSub ("%21") ("!") (pyReplaceChar '_' ' ' topic)
    some (pyLower topic)
  else
    let t500 := pySliceTo 500 text
    match findTitleGo [] t500.data with
    | some title => some (pyLower (pyStrip ⟨title⟩))
    | none =>
      match findQuotedGo t500.data with
      | some q => some (pyLower (pyStrip ⟨q⟩))
      | none => none

/-- The plain-substring navigation/metadata skips of
`is_relevant_sentence` (matched case-insensitively). -/
def skip_substring_checks : List String :=
  ["jump to navigation", "coordinates:", "this article", "wikipedia"]

/-- The anchored skips `^see also`, `^external links`, `^references`. -/
def skip_prefix_checks : List String := ["see also", "external links", "references"]

/-- The factual patterns of `is_relevant_sentence`, in source order, all
under `re.IGNORECASE`. -/
def factual_rel_patterns : List RE :=
  [reSeqs [.wb, litCI ("is"), rePlus reWs,
     reAlts [litCI ("a"), litCI ("an"), litCI ("the")], rePlus reWs, rePlus reWordC],
   reSeqs [.wb, litCI ("was"), rePlus reWs,
     reAlts [litCI ("created"), litCI ("written"), litCI ("produced"), litCI ("directed")]],
   reSeqs [.wb, litCI ("aired"), rePlus reWs,
     reAlts [litCI ("from"), litCI ("on"), litCI ("in")]],
   reSeqs [.wb, litCI ("feature"), reOpt (reCharCI 's'), rePlus reWs, rePlus reWordC],
   reSeqs [.wb, litCI ("character"), reOpt (reCharCI 's'), rePlus reWs, litCI ("include")],
   reSeqs [.wb, litCI ("series"), rePlus reWs,
     reAlts [litCI ("follows"), litCI ("focuses"), litCI ("centers")]],
   reSeqs [.wb, litCI ("episode"), reOpt (reCharCI 's'), rePlus reWs, rePlus reWordC]]

/-- Embedding of `is_relevant_sentence`.  The skip patterns are grouped
by kind (whole-string number, substring, anchored prefix); any hit
returns false, as in the source, where the loop order does not affect
the result. -/
def is_relevant_sentence (sentence : String) (main_topic : Option String) : Bool :=
  if sentence = "" || decide (sentence.length < 20) then false
  else if (let t := pyStrip sentence; t ≠ "" && t.data.all Char.isDigit) then false
  else if skip_substring_checks.any (fun p => pyIn p (pyLower sentence)) then false
  else if skip_prefix_checks.any
      (fun p => isPrefixB (p.data) ((pyLower sentence).data)) then false
  else if mentions_main_topic sentence main_topic then true
  else factual_rel_patterns.any (fun p => reSearch p sentence)

/-- One capitalised token `[A-Z][a-zA-Z\-!]*` of the proper-noun
pattern. -/
def pn_word : RE :=
  .seq (.cls Char.isUpper) (.star (.cls (fun c => asciiAlpha c || c = '-' || c = '!')))

/-- The proper-noun pattern
`\b[A-Z][a-zA-Z\-!]*(?:\s+[A-Z][a-zA-Z\-!]*)*\b` (case sensitive). -/
def proper_noun_pattern : RE :=
  reSeqs [.wb, pn_word, .star (.seq (rePlus reWs) pn_word), .wb]

/-- `re.findall` of the quoted-group pattern `"([^"]*)"`: the group
contents of every non-overlapping quote pair (possibly empty). -/
def findAllQuotedGo : ℕ → List Char → List (List Char)
  | 0, _ => []
  | _ + 1, [] => []
  | fuel + 1, c :: rest =>
    if c = '\x22' then
      let content := rest.takeWhile (fun x => x ≠ '\x22')
      match rest.drop content.length with
      | _ :: after => content :: findAllQuotedGo fuel after
      | [] => []
    else findAllQuotedGo fuel rest

/-- `\b(?:anime|manga|series|show|character|episode|season)\b` under
`re.IGNORECASE`. -/
def anime_terms_pattern : RE :=
  reSeqs [.wb,
    reAlts [litCI ("anime"), litCI ("manga"), litCI ("series"), litCI ("show"),
      litCI ("character"), litCI ("episode"), litCI ("season")], .wb]

/-- The technical-term alternation of `extract_topics_from_sentence`
under `re.IGNORECASE`. -/
def tech_terms_pattern : RE :=
  reSeqs [.wb,
    reAlts [litCI ("artificial intelligence"), litCI ("machine learning"),
      litCI ("neural network"), litCI ("algorithm"), litCI ("programming"),
      litCI ("technology"), litCI ("computer"), litCI ("software"),
      litCI ("data"), litCI ("system")], .wb]

/-- The short words excluded from topic candidates. -/
def topic_trivial_words : List String :=
  ["the", "and", "but", "for", "with", "this", "that"]

/-- Embedding of `extract_topics_from_sentence`.  The Python source
returns `list(set(topics))[:5]`; the embedding realises the same set by
first-occurrence deduplication before the cut to five. -/
def extract_topics_from_sentence (sentence : String) : List String :=
  let proper_nouns := reFindall proper_noun_pattern sentence
  let quoted_terms := (findAllQuotedGo (sentence.data.length + 1) sentence.data).map
    List.asString
  let anime_matches := reFindall anime_terms_pattern sentence
  let tech_matches := reFindall tech_terms_pattern sentence
  let all_topics := proper_nouns ++ quoted_terms ++ anime_matches ++ tech_matches
  let topics := all_topics.filterMap (fun t0 =>
    let t := pyStrip t0
    if decide (t.length > 1) && !(topic_trivial_words.contains (pyLower t)) then
      some (pyLower t)
    else none)
  topics.dedup.take 5

/-- Splitter for `re.split(r"[.!?]+", text)`: fragments between maximal
runs of sentence-ending punctuation. -/
def splitDelimsGo : List Char → List Char → Bool → List (List Char)
  | [], acc, _ => [acc.reverse]
  | c :: rest, acc, inDelim =>
    if c = '.' || c = '!' || c = '?' then
      if inDelim then splitDelimsGo rest acc true
      else acc.reverse :: splitDelimsGo rest [] true
    else splitDelimsGo rest (c :: acc) false

/-- Embedding of `extract_knowledge_from_text`. -/
def extract_knowledge_from_text (text : String) (source_url : Option String) :
    List ScrapedItem :=
  if text = "" || decide ((pyStrip text).length < 50) then []
  else
    let main_topic := detect_main_topic text source_url
    let sentences := ((splitDelimsGo text.data [] false).map
      (fun s => pyStrip ⟨s⟩)).filter (fun s => decide (s.length > 20))
    (sentences.take 100).flatMap (fun sentence =>
      if is_relevant_sentence sentence main_topic then
        let topics := extract_topics_from_sentence sentence
        let topics :=
          match main_topic with
          | some t =>
            if t ≠ "" && !((topics.map pyLower).contains t) then t :: topics else topics
          | none => topics
        (topics.take 2).map (fun topic =>
          { topic := topic, content := pyStrip sentence,
            source := source_url.getD ("web_scraping"),
            confidence_score := calculate_confidence_score sentence main_topic })
      else [])

/-! ### `web_scraper.py`: fetching and the batch scraper -/

/-- The network oracle standing for `trafilatura.fetch_url` followed by
`trafilatura.extract`: an exception, no extracted text, or the page
text. -/
structure ScrapeEnv where
  fetch : String → Except String (Option String)

/-- Embedding of `get_website_text_content`: an exception is caught and
logged, and a missing download or empty extraction yields the empty
string. -/
def get_website_text_content (env : ScrapeEnv) (url : String) : String :=
  match env.fetch url with
  | .error _ => ""
  | .ok none => ""
  | .ok (some text) => text

/-- The per-URL result record of `scrape_url`.  The Python dictionaries
carry different keys in the success and failure cases; absent keys are
modelled by `none`, the empty list, the empty string or zero.  The
`content_hash` field stands for the md5 digest of the content, a pure
function of it whose exact value no claim depends on. -/
structure ScrapeResult where
  success : Bool
  url : String
  error : Option String
  content_hash : String
  knowledge_items : List ScrapedItem
  word_count : ℕ
deriving Repr, DecidableEq

/-- Embedding of `scrape_url`.  The enclosing try/except of the source
cannot fire in the model: the only effect, the fetch, is already caught
inside `get_website_text_content`, and the rest of the body is pure. -/
def scrape_url (env : ScrapeEnv) (url : String) : ScrapeResult :=
  let content := get_website_text_content env url
  if content = "" then
    { success := false, url := url, error := some ("No content extracted"),
      content_hash := "", knowledge_items := [], word_count := 0 }
  else
    { success := true, url := url, error := none,
      content_hash := content,
      knowledge_items := extract_knowledge_from_text content (some url),
      word_count := (pySplit content).length }

/-- The fixed default source list of the scraper. -/
def default_sources : List String :=
  ["https://en.wikipedia.org/wiki/Artificial_intelligence",
   "https://en.wikipedia.org/wiki/Machine_learning",
   "https://en.wikipedia.org/wiki/Natural_language_processing",
   "https://www.britannica.com/technology/artificial-intelligence",
   "https://plato.stanford.edu/entries/artificial-intelligence/"]

/-- The aggregate record of `scrape_multiple_sources`. -/
structure ScrapeBatch where
  total_sources : ℕ
  successful_scrapes : ℕ
  total_knowledge_items : ℕ
  knowledge_by_topic : List (String × List ScrapedItem)
  errors : List String
deriving Repr, DecidableEq

/-- Grouping of the knowledge items of one successful scrape into the
running topic dictionary. -/
def add_items_by_topic (kbt : List (String × List ScrapedItem))
    (items : List ScrapedItem) : List (String × List ScrapedItem) :=
  items.foldl (fun kbt item =>
    match alistLookup kbt item.topic with
    | none => alistInsert kbt item.topic [item]
    | some l => alistInsert kbt item.topic (l ++ [item])) kbt

/-- The per-URL step of the batch loop. -/
def scrape_batch_step (env : ScrapeEnv) (results : ScrapeBatch) (url : String) :
    ScrapeBatch :=
  let result := scrape_url env url
  if result.success then
    { results with
      successful_scrapes := results.successful_scrapes + 1,
      total_knowledge_items := results.total_knowledge_items + result.knowledge_items.length,
      knowledge_by_topic := add_items_by_topic results.knowledge_by_topic
        result.knowledge_items }
  else
    { results with
      errors := results.errors ++ [url ++ ": " ++ result.error.getD ("Unknown error")] }

/-- Embedding of `scrape_multiple_sources`.  An empty url list falls
back to the default sources (the Python parameter default `None` is
falsy exactly like the empty list); the one-second politeness delay is
real time and outside the model; the try/except inside the loop cannot
fire, since `scrape_url` is total. -/
def scrape_multiple_sources (env : ScrapeEnv) (urls : List String)
    (max_sources : ℕ) : ScrapeBatch :=
  let urls := if urls = [] then default_sources else urls
  let urls := urls.take max_sources
  urls.foldl (scrape_batch_step env)
    { total_sources := urls.length, successful_scrapes := 0, total_knowledge_items := 0,
      knowledge_by_topic := [], errors := [] }

/-- Looking up the key just assigned yields the assigned value. -/
theorem alistLookup_insert_self (l : List (String × α)) (k : String) (v : α) :
    alistLookup (alistInsert l k v) k = some v := by
  induction l with
  | nil => simp [alistInsert, alistLookup]
  | cons hd t ih =>
    obtain ⟨a, b⟩ := hd
    by_cases hak : a = k
    · subst hak
      simp [alistInsert, alistLookup]
    · rw [show alistInsert ((a, b) :: t) k v =
          (if a == k then (k, v) :: t else (a, b) :: alistInsert t k v) from rfl]
      rw [if_neg (by simpa using hak)]
      unfold alistLookup
      rw [List.find?_cons_of_neg _ (by simpa using hak)]
      exact ih

/-- Assigning one key leaves the others unchanged. -/
theorem alistLookup_insert_other (l : List (String × α)) (k k2 : String) (v : α)
    (hne : k2 ≠ k) : alistLookup (alistInsert l k v) k2 = alistLookup l k2 := by
  induction l with
  | nil =>
    unfold alistInsert alistLookup
    rw [List.find?_cons_of_neg _ (by simpa using fun h => hne h.symm)]
  | cons hd t ih =>
    obtain ⟨a, b⟩ := hd
    rw [show alistInsert ((a, b) :: t) k v =
        (if a == k then (k, v) :: t else (a, b) :: alistInsert t k v) from rfl]
    by_cases hak : a = k
    · subst hak
      rw [if_pos (by simp)]
      unfold alistLookup
      rw [List.find?_cons_of_neg _ (by simpa using fun h => hne h.symm),
        List.find?_cons_of_neg _ (by simpa using fun h => hne h.symm)]
    · rw [if_neg (by simpa using hak)]
      by_cases hk2a : k2 = a
      · subst hk2a
        unfold alistLookup
        rw [List.find?_cons_of_pos _ (by simp), List.find?_cons_of_pos _ (by simp)]
      · unfold alistLookup
        rw [List.find?_cons_of_neg _ (by simpa using fun h => hk2a h.symm),
          List.find?_cons_of_neg _ (by simpa using fun h => hk2a h.symm)]
        exact ih

/-- Items already grouped stay grouped as more items are folded in. -/
theorem add_items_by_topic_mem_old (items : List ScrapedItem) :
    ∀ (kbt : List (String × List ScrapedItem)) (t : String) (l0 : List ScrapedItem)
      (item0 : ScrapedItem), alistLookup kbt t = some l0 → item0 ∈ l0 →
    ∃ l, alistLookup (add_items_by_topic kbt items) t = some l ∧ item0 ∈ l := by
  induction items with
  | nil => exact fun kbt t l0 item0 h hm => ⟨l0, h, hm⟩
  | cons item rest ih =>
    intro kbt t l0 item0 h hm
    show ∃ l, alistLookup (add_items_by_topic
      (match alistLookup kbt item.topic with
        | none => alistInsert kbt item.topic [item]
        | some l => alistInsert kbt item.topic (l ++ [item])) rest) t = some l ∧ item0 ∈ l
    by_cases ht : t = item.topic
    · subst ht
      rw [h]
      refine ih _ item.topic (l0 ++ [item]) item0 ?_ (List.mem_append_left _ hm)
      exact alistLookup_insert_self kbt item.topic (l0 ++ [item])
    · cases hlk : alistLookup kbt item.topic with
      | none =>
        refine ih _ t l0 item0 ?_ hm
        rw [alistLookup_insert_other _ _ _ _ ht]
        exact h
      | some l =>
        refine ih _ t l0 item0 ?_ hm
        rw [alistLookup_insert_other _ _ _ _ ht]
        exact h

/-- Every item folded into the topic dictionary is afterwards found
under its topic. -/
theorem add_items_by_topic_mem_new (items : List ScrapedItem) :
    ∀ (kbt : List (String × List ScrapedItem)) (item : ScrapedItem), item ∈ items →
    ∃ l, alistLookup (add_items_by_topic kbt items) item.topic = some l ∧ item ∈ l := by
  induction items with
  | nil => intro kbt item h; cases h
  | cons hd rest ih =>
    intro kbt item h
    show ∃ l, alistLookup (add_items_by_topic
      (match alistLookup kbt hd.topic with
        | none => alistInsert kbt hd.topic [hd]
        | some l => alistInsert kbt hd.topic (l ++ [hd])) rest) item.topic = some l ∧
      item ∈ l
    rcases List.mem_cons.mp h with rfl | h
    · cases hlk : alistLookup kbt item.topic with
      | none =>
        refine add_items_by_topic_mem_old rest _ item.topic [item] item ?_ (by simp)
        exact alistLookup_insert_self kbt item.topic [item]
      | some l =>
        refine add_items_by_topic_mem_old rest _ item.topic (l ++ [item]) item ?_ (by simp)
        exact alistLookup_insert_self kbt item.topic (l ++ [item])
    · exact ih _ item h

/-- The batch loop never changes the recorded source total. -/
theorem scrape_batch_total (env : ScrapeEnv) (urls : List String) :
    ∀ acc : ScrapeBatch,
      (urls.foldl (scrape_batch_step env) acc).total_sources = acc.total_sources := by
  induction urls with
  | nil => intro acc; rfl
  | cons u rest ih =>
    intro acc
    rw [List.foldl_cons, ih]
    unfold scrape_batch_step
    dsimp only
    split
    · rfl
    · rfl

/-- Every processed URL adds exactly one success or one error entry. -/
theorem scrape_batch_count (env : ScrapeEnv) (urls : List String) :
    ∀ acc : ScrapeBatch,
      (urls.foldl (scrape_batch_step env) acc).successful_scrapes +
        (urls.foldl (scrape_batch_step env) acc).errors.length =
      acc.successful_scrapes + acc.errors.length + urls.length := by
  induction urls with
  | nil => intro acc; simp
  | cons u rest ih =>
    intro acc
    rw [List.foldl_cons, ih]
    unfold scrape_batch_step
    dsimp only
    split
    · simp only [List.length_cons]
      omega
    · simp only [List.length_append, List.length_singleton, List.length_cons,
        List.length_nil]
      omega

/-- Grouped items survive the rest of the batch loop. -/
theorem scrape_batch_preserves (env : ScrapeEnv) (urls : List String) :
    ∀ (acc : ScrapeBatch) (t : String) (l0 : List ScrapedItem) (item0 : ScrapedItem),
      alistLookup acc.knowledge_by_topic t = some l0 → item0 ∈ l0 →
    ∃ l, alistLookup (urls.foldl (scrape_batch_step env) acc).knowledge_by_topic t =
        some l ∧ item0 ∈ l := by
  induction urls with
  | nil => exact fun acc t l0 item0 h hm => ⟨l0, h, hm⟩
  | cons u rest ih =>
    intro acc t l0 item0 h hm
    rw [List.foldl_cons]
    unfold scrape_batch_step
    dsimp only
    split
    · obtain ⟨l2, hl2, hm2⟩ := add_items_by_topic_mem_old
        (scrape_url env u).knowledge_items acc.knowledge_by_topic t l0 item0 h hm
      exact ih _ t l2 item0 hl2 hm2
    · exact ih _ t l0 item0 h hm

/-- Knowledge items of every successful URL end up grouped under their
topics in the final dictionary. -/
theorem scrape_batch_adds (env : ScrapeEnv) (urls : List String) :
    ∀ acc : ScrapeBatch, ∀ url ∈ urls, (scrape_url env url).success = true →
    ∀ item ∈ (scrape_url env url).knowledge_items,
    ∃ l, alistLookup (urls.foldl (scrape_batch_step env) acc).knowledge_by_topic
        item.topic = some l ∧ item ∈ l := by
  induction urls with
  | nil => intro acc url h; cases h
  | cons u rest ih =>
    intro acc url hu hsucc item hitem
    rw [List.foldl_cons]
    rcases List.mem_cons.mp hu with rfl | hu
    · obtain ⟨l2, hl2, hm2⟩ := add_items_by_topic_mem_new
        (scrape_url env url).knowledge_items acc.knowledge_by_topic item hitem
      have hstep : (scrape_batch_step env acc url).knowledge_by_topic =
          add_items_by_topic acc.knowledge_by_topic (scrape_url env url).knowledge_items := by
        unfold scrape_batch_step
        dsimp only
        rw [if_pos hsucc]
      exact scrape_batch_preserves env rest _ item.topic l2 item (hstep ▸ hl2) hm2
    · exact ih _ url hu hsucc item hitem

/-! ### Claim C9: scraper failure isolation -/

/-- C9: a URL whose fetch fails or yields no text produces a result
record with `success = false` and the fixed error message (and, the
embedding being total, no exception escapes `scrape_url`); and over a
batch, at most `max_sources` URLs are processed, every processed URL
accounts for exactly one success or one recorded error (the batch never
aborts), and every knowledge item of every successful URL is grouped
under its topic in the aggregate dictionary. -/
theorem scraper_failure_isolation (env : ScrapeEnv) (urls : List String)
    (max_sources : ℕ) :
    (∀ url, get_website_text_content env url = "" →
      (scrape_url env url).success = false ∧
      (scrape_url env url).error = some ("No content extracted")) ∧
    (scrape_multiple_sources env urls max_sources).total_sources ≤ max_sources ∧
    (scrape_multiple_sources env urls max_sources).successful_scrapes +
        (scrape_multiple_sources env urls max_sources).errors.length =
      (scrape_multiple_sources env urls max_sources).total_sources ∧
    (∀ url ∈ ((if urls = [] then default_sources else urls).take max_sources),
      (scrape_url env url).success = true →
      ∀ item ∈ (scrape_url env url).knowledge_items,
      ∃ l, alistLookup
          (scrape_multiple_sources env urls max_sources).knowledge_by_topic
          item.topic = some l ∧ item ∈ l) := by
  refine ⟨?_, ?_, ?_, ?_⟩
  · intro url hempty
    unfold scrape_url
    rw [hempty]
    exact ⟨rfl, rfl⟩
  · unfold scrape_multiple_sources
    rw [scrape_batch_total]
    simp
  · unfold scrape_multiple_sources
    rw [scrape_batch_count, scrape_batch_total]
    simp
  · intro url hu hsucc item hitem
    unfold scrape_multiple_sources
    exact scrape_batch_adds env _ _ url hu hsucc item hitem

/-- C9 witness: with an oracle on which every fetch raises, a batch of
three URLs capped at two records a failure for each processed URL and
aggregates nothing. -/
theorem scraper_failure_isolation_witness :
    ((scrape_url ⟨fun _ => .error ("unreachable")⟩ ("http://a")).success = false ∧
      (scrape_url ⟨fun _ => .error ("unreachable")⟩ ("http://a")).error =
        some ("No content extracted")) ∧
    ("http://a" ∈ ((if (["http://a", "http://b", "http://c"] : List String) = []
        then default_sources else ["http://a", "http://b", "http://c"]).take 2) →
      (scrape_url ⟨fun _ => .error ("unreachable")⟩ ("http://a")).success = true →
      ∀ item ∈ (scrape_url ⟨fun _ => .error ("unreachable")⟩ ("http://a")).knowledge_items,
      ∃ l, alistLookup (scrape_multiple_sources ⟨fun _ => .error ("unreachable")⟩
          (["http://a", "http://b", "http://c"]) 2).knowledge_by_topic item.topic =
        some l ∧ item ∈ l) :=
  ⟨(scraper_failure_isolation ⟨fun _ => .error ("unreachable")⟩
      (["http://a", "http://b", "http://c"]) 2).1 ("http://a") rfl,
   fun hm => (scraper_failure_isolation ⟨fun _ => .error ("unreachable")⟩
      (["http://a", "http://b", "http://c"]) 2).2.2.2 ("http://a") hm⟩

/-! ### `ai_model.py`: process state and effect oracles -/

/-- One entry of the in-process conversation memory.  The timestamps of
the source are real time and carry no behaviour, so they are not
modelled; user entries also store the session id. -/
inductive MemEntry : Type where
  | user (message : String) (user_id : Option String) : MemEntry
  | ai (response : String) : MemEntry
deriving Repr, DecidableEq

/-- The AI response carried by a memory entry, when there is one (the
`entry.get("ai", "")` access pattern). -/
def MemEntry.aiResponse : MemEntry → Option String
  | .user _ _ => none
  | .ai r => some r

/-- The mutable in-process state of a `HitoriAI` instance that the
message pipeline reads and writes (`user_preferences` is never read and
is omitted). -/
structure AIState where
  knowledge_base : KnowledgeBase
  conversation_memory : List MemEntry
  context_keywords : List String
deriving Repr, DecidableEq

/-- The state of a freshly constructed instance with no knowledge file
on disk. -/
def initial_state : AIState :=
  { knowledge_base := create_initial_knowledge_base,
    conversation_memory := [], context_keywords := [] }

/-- A knowledge row as assembled by `get_knowledge_from_database`. -/
structure DBItem where
  topic : String
  content : String
  confidence : ℚ
  source : String
deriving Repr, DecidableEq

/-- The effect oracles of the pipeline: whether a database session
exists, the per-keyword database query of `get_knowledge_from_database`
(the filtered, confidence-ordered, limit-2 result, or an exception), the
conversation-history write, the knowledge-file save and the web fetch.
The write and the save return no data and their exceptions are caught
and logged in the source, so only their outcome is modelled. -/
structure PMEnv where
  db_active : Bool
  db_query : String → Except String (List DBItem)
  db_write : Except String Unit
  file_save : Except String Unit
  scrape : ScrapeEnv

/-- The context record of `analyze_conversation_context`. -/
structure ConvContext where
  is_question : Bool
  is_greeting : Bool
  is_farewell : Bool
  sentiment : String
  recent_topics : List String
  message_length : ℕ
  has_enthusiasm : Bool
  is_request : Bool
deriving Repr, DecidableEq

/-- Embedding of `analyze_conversation_context` (the `keywords`
parameter of the source is unused by its body). -/
def analyze_conversation_context (st : AIState) (message : String)
    (keywords : List String) : ConvContext :=
  let ml := pyLower message
  { is_question := pyIn ("?") message ||
      (["what", "how", "why", "when", "where", "who"].any (fun w => pyIn w ml)),
    is_greeting :=
      ["hello", "hi", "hey", "good morning", "good afternoon"].any (fun w => pyIn w ml),
    is_farewell := ["bye", "goodbye", "see you", "later"].any (fun w => pyIn w ml),
    sentiment := analyze_sentiment message,
    recent_topics := pyTakeLast 5 st.context_keywords,
    message_length := (pySplit message).length,
    has_enthusiasm := pyIn ("!") message ||
      (["awesome", "amazing", "great", "love", "excited"].any (fun w => pyIn w ml)),
    is_request :=
      ["can you", "could you", "please", "help me", "tell me"].any (fun w => pyIn w ml) }

/-- Embedding of `get_knowledge_from_database`: query the oracle for the
top two keywords; any database exception is caught and yields the empty
result; otherwise sort all rows by confidence descending (stable, as the
Python `sorted` with `reverse=True`) and keep the top three. -/
def get_knowledge_from_database (env : PMEnv) (keywords : List String) : List DBItem :=
  if !env.db_active then []
  else
    match (keywords.take 2).foldl (fun acc kw =>
        match acc with
        | .error e => .error e
        | .ok items =>
          match env.db_query kw with
          | .error e => .error e
          | .ok rows => .ok (items ++ rows)) (Except.ok ([] : List DBItem)) with
    | .error _ => []
    | .ok items =>
      (items.mergeSort (fun a b => decide (b.confidence ≤ a.confidence))).take 3

/-- Embedding of `get_knowledge_from_memory`. -/
def get_knowledge_from_memory (kb : KnowledgeBase) (keywords : List String) :
    List DBItem :=
  (keywords.take 3).flatMap (fun keyword =>
    let keyword_lower := pyDropChar '!' (pyDropChar '-' (pyLower keyword))
    kb.topic_knowledge.flatMap (fun tp =>
      let topic_clean := pyDropChar '!' (pyDropChar '-' (pyLower tp.1))
      if pyIn keyword_lower topic_clean || pyIn topic_clean keyword_lower ||
          (tp.2.facts.any (fun fact => pyIn keyword_lower (pyLower fact))) then
        tp.2.facts.map (fun fact =>
          { topic := tp.1, content := fact,
            confidence := tp.2.confidence.getD 0.5,
            source := tp.2.source.getD ("learned") })
      else []))

/-- One keyword step of `search_wikipedia_for_keywords`: the running
state holds the collected items, the knowledge base and the break flag
set once at least two items were collected. -/
def wiki_step (env : PMEnv) (acc : List DBItem × KnowledgeBase × Bool)
    (keyword : String) : List DBItem × KnowledgeBase × Bool :=
  match acc with
  | (items, kb, true) => (items, kb, true)
  | (items, kb, false) =>
    let clean_keyword := pyReplaceSub ("!") ("%21") (pyReplaceChar ' ' '_' keyword)
    let wikipedia_url := "https://en.wikipedia.org/wiki/" ++ clean_keyword
    let result := scrape_url env.scrape wikipedia_url
    if result.success && !result.knowledge_items.isEmpty then
      let taken := result.knowledge_items.take 3
      let items2 := items ++ taken.map (fun it =>
        { topic := it.topic, content := it.content, confidence := it.confidence_score,
          source := "wikipedia:" ++ wikipedia_url })
      let kb2 := taken.foldl (fun kb3 it =>
        store_learned_knowledge kb3 it.topic it.content it.confidence_score
          wikipedia_url) kb
      (items2, kb2, decide (items2.length ≥ 2))
    else (items, kb, false)

/-- Embedding of `search_wikipedia_for_keywords`: scrape an encyclopedia
page for up to two keywords, store up to three facts per page through
`store_learned_knowledge`, stop once two items are collected, and return
`none` when nothing was found.  The per-keyword and outer exception
handlers of the source cannot fire in the model, where `scrape_url` is
total. -/
def search_wikipedia_for_keywords (env : PMEnv) (kb : KnowledgeBase)
    (keywords : List String) : Option (List DBItem) × KnowledgeBase :=
  let r := (keywords.take 2).foldl (wiki_step env) ([], kb, false)
  (if r.1 = [] then none else some r.1, r.2.1)

/-- The Python `max(l, key=f)`: first element attaining the maximum
(raises on the empty list, which callers here guard against). -/
def pyMaxBy (f : α → ℚ) : List α → Option α
  | [] => none
  | a :: as => some (as.foldl (fun best x => if f x > f best then x else best) a)

/-! ### `ai_model.py`: the curated topic table and its matching -/

/-- A topic entry: either one response string or a list of variants. -/
inductive TopicVal : Type where
  | single (s : String) : TopicVal
  | multi (l : List String) : TopicVal
deriving Repr, DecidableEq

/-- The curated `topic_responses` table of `generate_enhanced_response`,
verbatim. -/
def topic_responses : List (String × TopicVal) :=
  [("vr", .multi
     ["VR headsets are absolutely fascinating! They create immersive virtual worlds by tracking your head movements and displaying stereoscopic images. Modern VR headsets like the Meta Quest, PlayStation VR, and Valve Index offer incredible experiences - from exploring virtual worlds to playing immersive games. What interests you most about VR technology? Are you thinking about getting one, or curious about how they work?",
      "Virtual Reality is such an exciting field! VR headsets transport you to completely different worlds using advanced display technology, motion tracking, and spatial audio. They\x27re used for gaming, education, training simulations, and even therapy. The technology has come so far - we now have wireless headsets with hand tracking! What aspect of VR fascinates you most?",
      "VR headsets are incredible pieces of technology! They use multiple sensors, high-resolution displays, and precise tracking to create the illusion that you\x27re somewhere else entirely. From exploring ancient civilizations to practicing surgery, VR opens up amazing possibilities. Have you tried VR before, or are you curious about what it\x27s like?"]),
   ("headset", .multi
     ["Headsets come in so many varieties! There are VR headsets for virtual reality, gaming headsets for immersive audio, and professional headsets for work calls. Each type is engineered for specific purposes - VR headsets focus on visual immersion and tracking, while gaming headsets prioritize audio quality and comfort for long sessions. What type of headset are you interested in?",
      "The world of headsets is diverse and exciting! From lightweight wireless earbuds to heavy-duty professional broadcasting headsets, each serves different needs. Gaming headsets often feature surround sound and noise cancellation, while VR headsets include motion sensors and high-resolution displays. Are you looking for recommendations, or curious about how they work?"]),
   ("pepsi", .multi
     ["Pepsi has quite a history! It was created in 1893 by pharmacist Caleb Bradham. Interesting how it became Coca-Cola\x27s main rival.",
      "The Cola Wars between Pepsi and Coke were fascinating! Remember the Pepsi Challenge campaigns?",
      "Pepsi\x27s marketing has always been bold - from the \x27Pepsi Generation\x27 to celebrity endorsements. What do you think of their approach?",
      "Did you know Pepsi once briefly owned a fleet of Soviet warships? Wild business deals in the 80s!"]),
   ("coke", .multi
     ["Coca-Cola is the classic! That secret formula has been kept under wraps for over a century.",
      "The polar bear ads and \x27Share a Coke\x27 campaigns were genius marketing moves.",
      "Coke\x27s global reach is incredible - it\x27s available in almost every country on Earth."]),
   ("drinks", .multi
     ["There are so many interesting beverages out there! From artisanal sodas to energy drinks to traditional teas.",
      "The beverage industry is always innovating - have you tried any unique flavors lately?",
      "I find it fascinating how different cultures have their own signature drinks."]),
   ("k-on", .single
     "K-On! is such a delightful slice-of-life anime! It follows five high school girls in their light music club - Yui, Mio, Ritsu, Tsumugi, and Azusa. The show perfectly captures the joy of friendship and music-making."),
   ("bocchi", .single
     "Bocchi the Rock! is absolutely fantastic! It tells the story of Hitori Gotoh, a socially anxious guitarist who joins a band. The series brilliantly portrays social anxiety while celebrating the power of music and friendship."),
   ("anime", .single
     "Anime is such a rich medium! From epic adventures like Attack on Titan to heartwarming stories like Your Name, there\x27s something for everyone. What genres do you enjoy most?"),
   ("music", .single
     "Music truly is magical! It can instantly transport you to different emotions and memories. Whether it\x27s a catchy pop song or a moving classical piece, music speaks to the soul."),
   ("technology", .single
     "Technology is evolving at an incredible pace! From AI assistants like me to quantum computers and space exploration, we\x27re living in exciting times. What tech interests you most?"),
   ("hello", .single
     "Hello there! I\x27m excited to chat with you today. What\x27s on your mind?"),
   ("help", .single
     "I\x27d love to help you with whatever you need! Whether it\x27s answering questions, having a conversation, or exploring topics together, I\x27m here for you.")]

/-- The fixed alias table of `find_best_topic_match`, in source order. -/
def related_terms : List (String × String) :=
  [("guitar", "bocchi"), ("band", "bocchi"), ("shy", "bocchi"),
   ("club", "k-on"), ("tea", "k-on"),
   ("code", "programming"), ("python", "programming"), ("javascript", "programming"),
   ("novel", "books"), ("story", "books"),
   ("gaming", "games"), ("video", "games"),
   ("physics", "science"), ("chemistry", "science"), ("biology", "science")]

/-- Embedding of `find_best_topic_match`: for each keyword in turn, try
a direct match against every topic key, then the alias table (whose
target must itself be a key of the topic table). -/
def find_best_topic_match (keywords : List String) : Option String :=
  keywords.findSome? (fun keyword =>
    let keyword_clean :=
      pyDropChar ' ' (pyDropChar '-' (pyDropChar '!' (pyLower keyword)))
    match topic_responses.findSome? (fun tp =>
        let topic_clean := pyDropChar '!' (pyDropChar '-' tp.1)
        if pyIn keyword_clean topic_clean || pyIn topic_clean keyword_clean ||
            pyLower keyword == tp.1 ||
            ((pySplit keyword).any (fun word => pyIn word tp.1)) then
          some tp.1
        else none) with
    | some t => some t
    | none =>
      related_terms.findSome? (fun rt =>
        if pyIn rt.1 keyword_clean &&
            (topic_responses.any (fun tp => tp.1 == rt.2)) then
          some rt.2
        else none))

/-! ### `ai_model.py`: response post-processing -/

/-- The optional question openers of `add_contextual_flourish`. -/
def question_starters_fl : List String :=
  ["Great question! ", "That\x27s interesting you ask! ",
   "I\x27m glad you brought that up. ", ""]

/-- The optional enthusiasm closers of `add_contextual_flourish`. -/
def enthusiasm_enders : List String :=
  [" Your excitement is contagious!", " I love the enthusiasm!",
   " What got you so interested in this?", ""]

/-- The optional general closers of `add_contextual_flourish`. -/
def general_enders : List String :=
  [" What\x27s your take on this?", " Have you had experience with this?",
   " What interests you most about it?", " What would you like to know more about?", ""]

/-- Embedding of `add_contextual_flourish`. -/
def add_contextual_flourish (context : ConvContext) (base_response : String)
    (g : RNG) : Except String (String × RNG) := do
  let (base_response, g) ←
    if context.is_question then do
      let (starter, g) ← randChoice question_starters_fl g
      pure (starter ++ base_response, g)
    else pure (base_response, g)
  if context.has_enthusiasm then do
    let (ender, g) ← randChoice enthusiasm_enders g
    pure (base_response ++ ender, g)
  else do
    let (b, g) ← randChoice [true, false] g
    if b then do
      let (ender, g) ← randChoice general_enders g
      pure (base_response ++ ender, g)
    else pure (base_response, g)

/-- The `fresh_approaches` table of `generate_fresh_response`. -/
def fresh_approaches : List (String × List String) :=
  [("pepsi",
    ["You know, beverage history is pretty wild! What draws you to Pepsi specifically?",
     "The soft drink industry has such interesting stories. Any particular aspect you\x27re curious about?",
     "That\x27s a classic brand! Are you more interested in the business side or just enjoy the taste?"]),
   ("coke",
    ["The Coca-Cola story is fascinating from a business perspective. What interests you about it?",
     "That\x27s one of the most recognizable brands worldwide! What aspect caught your attention?"])]

/-- Embedding of `generate_fresh_response`. -/
def generate_fresh_response (topic : String) (g : RNG) :
    Except String (String × RNG) :=
  match alistLookup fresh_approaches topic with
  | some l => randChoice l g
  | none =>
    .ok ("I\x27m always learning more about " ++ topic ++
      ". What specifically interests you about it?", g)

/-- Embedding of `select_varied_response`: list-valued entries are
filtered against the recent replies and one survivor is drawn (falling
back to a fresh response when all are near-duplicates); a single string
entry goes straight to the flourish step.  A topic absent from the
table would raise a `KeyError` in the source. -/
def select_varied_response (topic : String) (recent_responses : List String)
    (context : ConvContext) (g : RNG) : Except String (String × RNG) :=
  match alistLookup topic_responses topic with
  | some (.multi l) =>
    let available := l.filter (fun response =>
      !(recent_responses.any (fun recent => responses_too_similar response recent)))
    if available ≠ [] then do
      let (base, g) ← randChoice available g
      add_contextual_flourish context base g
    else generate_fresh_response topic g
  | some (.single s) => add_contextual_flourish context s g
  | none => .error ("KeyError: topic not in topic_responses")

/-! ### `ai_model.py`: the content cleaner -/

/-- The class `.` of the regexes (anything but a newline). -/
def reDot : RE := .cls (fun c => c ≠ '\n')

/-- Left-to-right non-overlapping `re.sub`: at each position replace the
highest-priority match if there is one and continue after it, otherwise
copy one character.  None of the patterns used here can match the empty
string; an empty match would emit the replacement and advance one
character, as the Python scanner does. -/
def reSubGo (r : RE) (repl : List Char) : ℕ → Option Char → List Char → List Char
  | 0, _, s => s
  | fuel + 1, prev, s =>
    match (reMatch (s.length + 1) r prev s).head? with
    | some pr =>
      if pr.1 = [] then
        match s with
        | [] => repl
        | c :: s2 => repl ++ c :: reSubGo r repl fuel (some c) s2
      else repl ++ reSubGo r repl fuel (lastPrev pr.1 prev) pr.2
    | none =>
      match s with
      | [] => []
      | c :: s2 => c :: reSubGo r repl fuel (some c) s2

/-- `re.sub(pattern, repl, s)`. -/
def reSub (r : RE) (repl s : String) : String :=
  ⟨reSubGo r repl.data (s.data.length + 1) none s.data⟩

/-- The ordered substitution passes of `clean_knowledge_content`:
table-cell and table-fragment pipes, wiki links, templates, reference
tags, html tags, reference numbers, whitespace and newline runs. -/
def clean_passes : List (RE × String) :=
  [(reSeqs [reChar '|', .starL reDot, reChar '|'], ""),
   (reSeqs [reChar '|', .star reDot], ""),
   (reSeqs [.star reDot, reChar '|'], ""),
   (reSeqs [rePlus (reChar '-'), reChar '|', rePlus (reChar '-')], ""),
   (reSeqs [reChar '|', .star reWs], ""),
   (reSeqs [litCS ("[["), .starL reDot, litCS ("]]")], ""),
   (reSeqs [reChar '\x7b', reChar '\x7b', .starL reDot, reChar '\x7d', reChar '\x7d'], ""),
   (reSeqs [litCS ("<ref"), .starL reDot, litCS ("</ref>")], ""),
   (reSeqs [reChar '<', .starL reDot, reChar '>'], ""),
   (reSeqs [reChar '[', rePlus reDigit, reChar ']'], ""),
   (rePlus reWs, " "),
   (rePlus (reChar '\n'), " ")]

/-- The sentence-assembly loop of `clean_knowledge_content` with its
250-character budget. -/
def build_clean_result : List String → ℕ → List String
  | [], _ => []
  | s :: rest, total =>
    if total + (s.length + 1) + 1 ≤ 250 then
      s :: build_clean_result rest (total + (s.length + 1) + 1)
    else []

/-- Embedding of `clean_knowledge_content` (the `isinstance` test of the
source is static in the typed model). -/
def clean_knowledge_content (content : String) : String :=
  if content = "" then ""
  else
    let content := clean_passes.foldl (fun c p => reSub p.1 p.2 c) content
    let content := pyStrip content
    let sentences := (content.splitOn (".")).filterMap (fun s0 =>
      let s := pyStrip s0
      if decide (s.length > 20) && !(pyIn ("|") s) &&
          !(s ≠ "" && s.data.all Char.isDigit) &&
          !(isPrefixB (['[']) s.data) &&
          decide ((pySplit s).length > 3) then
        some s
      else none)
    let result_sentences := build_clean_result (sentences.take 2) 0
    if result_sentences ≠ [] then
      String.intercalate (". ") result_sentences ++ "."
    else ""

/-! ### `ai_model.py`: knowledge-grounded and template responses -/

/-- The question templates of `generate_intelligent_keyword_response`
around a keyword, verbatim. -/
def intelligent_question_templates (mk : String) : List String :=
  ["That\x27s a fascinating question about " ++ mk ++
     "! Let me share what I know and learn from your perspective too. " ++ mk ++
     " is a topic with many interesting aspects - from its history and development to its current applications and future potential. What specific aspects are you most curious about? Are you looking to understand how it works, its impact, or perhaps personal experiences with it?",
   "Great question about " ++ mk ++
     "! I love exploring topics like this because there\x27s always so much depth to discover. Whether we\x27re talking about the technical side, the human stories behind it, or its broader implications, " ++
     mk ++
     " offers rich discussion material. What prompted your curiosity about this particular topic? I\x27d love to hear your thoughts and share what I\x27ve learned!",
   "Excellent question! " ++ mk ++
     " is definitely worth diving deep into. I find that the best conversations happen when we can explore topics from multiple angles - the facts, the personal connections, the \x27why it matters\x27 aspects. What drew you to ask about " ++
     mk ++
     "? Do you have any experience with it, or is this completely new territory you\x27re exploring?",
   "You\x27ve touched on something really interesting with " ++ mk ++
     "! I always enjoy when conversations go in unexpected directions like this. There\x27s often more to explore than meets the eye initially. What angle interests you most? Are you thinking about it from a practical standpoint, or are you more curious about the bigger picture and implications?",
   "That\x27s a topic worth exploring thoroughly! " ++ mk ++
     " is one of those subjects where every question leads to more fascinating discoveries. I find that understanding the \x27why\x27 behind things is often as interesting as the \x27what\x27 and \x27how\x27. What made you think of " ++
     mk ++ "? Let\x27s dive into whatever aspect interests you most!"]

/-- The positive-sentiment templates. -/
def intelligent_positive_templates (mk : String) : List String :=
  ["I can tell you\x27re excited about " ++ mk ++
     "! Your enthusiasm is infectious. What makes this topic so interesting to you?",
   "I love your positive energy about " ++ mk ++
     "! It\x27s clear this resonates with you. What got you interested in it?",
   "Your excitement about " ++ mk ++
     " is wonderful! I\x27d love to hear what draws you to this topic.",
   "Your enthusiasm for " ++ mk ++ " is great! What\x27s the most exciting aspect for you?",
   "I can feel your passion for " ++ mk ++ "! What sparked this interest?"]

/-- The negative-sentiment templates. -/
def intelligent_negative_templates (mk : String) : List String :=
  ["I sense you might have mixed feelings about " ++ mk ++
     ". Sometimes talking helps clarify our thoughts. What\x27s your experience been?",
   "It seems like " ++ mk ++
     " might be challenging for you. I\x27m here to listen. What\x27s been difficult about it?",
   "I understand " ++ mk ++
     " might not be sitting well with you. Would you like to share what\x27s concerning you?",
   "I hear some hesitation about " ++ mk ++ ". What\x27s been troubling you about it?",
   "It sounds like " ++ mk ++
     " has been on your mind. Want to talk through what\x27s bothering you?"]

/-- The neutral templates when the keyword has a topic record. -/
def intelligent_known_templates (mk : String) : List String :=
  ["Ah, " ++ mk ++ "! That\x27s a topic I\x27ve been learning about. What\x27s your take on it?",
   "I find " ++ mk ++
     " quite fascinating. There\x27s always more to discover. What interests you about it?",
   mk ++ " is such an interesting subject. I\x27m curious about your perspective on it.",
   "I\x27ve encountered " ++ mk ++ " before. What\x27s your experience with it?",
   "That\x27s a topic I\x27m familiar with! What would you like to discuss about " ++ mk ++ "?"]

/-- The neutral templates when the keyword is new. -/
def intelligent_new_templates (mk : String) : List String :=
  ["I\x27d love to learn more about " ++ mk ++ " from you. What makes it interesting?",
   "That\x27s a great topic - " ++ mk ++
     ". I\x27m always eager to explore new subjects. What would you like to discuss about it?",
   "I\x27m curious about " ++ mk ++
     ". Everyone has unique insights on different topics. What\x27s yours?",
   "Tell me more about " ++ mk ++ "! I\x27m always learning something new.",
   "That\x27s intriguing! What\x27s the story with " ++ mk ++ "?"]

/-- The non-repetition selection shared by the template families of
`generate_intelligent_keyword_response`: keep the candidates not too
similar to a recent reply, draw one, or fall back to the fixed neutral
sentence. -/
def intelligent_pick (responses : List String) (main_keyword : String)
    (recent_responses : List String) (g : RNG) : Except String (String × RNG) :=
  let available := responses.filter (fun r =>
    !(recent_responses.any (fun recent => responses_too_similar r recent)))
  if available ≠ [] then randChoice available g
  else
    .ok ("That\x27s an interesting topic! What would you like to explore about " ++
      main_keyword ++ "?", g)

/-- Embedding of `generate_intelligent_keyword_response`. -/
def generate_intelligent_keyword_response (kb : KnowledgeBase) (keywords : List String)
    (context : ConvContext) (recent_responses : List String) (g : RNG) :
    Except String (String × RNG) := do
  let main_keyword := keywords.headD ("that topic")
  let has_knowledge := (alistLookup kb.topic_knowledge main_keyword).isSome
  if context.is_question then
    match alistLookup kb.topic_knowledge main_keyword with
    | some topic_data =>
      if topic_data.facts ≠ [] then do
        let (fact, g) ← randChoice topic_data.facts g
        return ("Great question about " ++ main_keyword ++ "! " ++ fact ++
          " What else would you like to know about it?", g)
      else
        intelligent_pick (intelligent_question_templates main_keyword)
          main_keyword recent_responses g
    | none =>
      intelligent_pick (intelligent_question_templates main_keyword)
        main_keyword recent_responses g
  else if context.sentiment = "positive" then
    intelligent_pick (intelligent_positive_templates main_keyword)
      main_keyword recent_responses g
  else if context.sentiment = "negative" then
    intelligent_pick (intelligent_negative_templates main_keyword)
      main_keyword recent_responses g
  else if has_knowledge then
    intelligent_pick (intelligent_known_templates main_keyword)
      main_keyword recent_responses g
  else
    intelligent_pick (intelligent_new_templates main_keyword)
      main_keyword recent_responses g

/-- Embedding of `generate_knowledge_based_response` (callers guarantee
a non-empty knowledge list; `max` on an empty list would raise). -/
def generate_knowledge_based_response (kb : KnowledgeBase) (db_knowledge : List DBItem)
    (keywords : List String) (context : ConvContext) (recent_responses : List String)
    (g : RNG) : Except String (String × RNG) :=
  let main_keyword := keywords.headD ("that")
  match pyMaxBy (fun x => x.confidence) db_knowledge with
  | none => .error ("ValueError: max of an empty sequence")
  | some best_knowledge =>
    let content := clean_knowledge_content best_knowledge.content
    if content ≠ "" then
      let response_templates :=
        if context.is_question then
          ["Based on what I\x27ve learned, " ++ content ++
             " What else would you like to know about " ++ main_keyword ++ "?",
           "From my knowledge, " ++ content ++ " Any other questions about " ++
             main_keyword ++ "?",
           "Here\x27s what I know: " ++ content ++ " What interests you most about " ++
             main_keyword ++ "?"]
        else
          ["That\x27s interesting about " ++ main_keyword ++ "! " ++ content ++
             " What\x27s your experience with this topic?",
           "Ah, " ++ main_keyword ++ "! " ++ content ++ " What do you think about that?",
           "I know a bit about " ++ main_keyword ++ ". " ++ content ++
             " How does that relate to your interest?"]
      match response_templates.find? (fun template =>
          !(recent_responses.any (fun recent => responses_too_similar template recent))) with
      | some template => .ok (template, g)
      | none => .ok (response_templates.headD (""), g)
    else
      generate_intelligent_keyword_response kb keywords context recent_responses g

/-! ### `ai_model.py`: the no-keyword fallback -/

/-- The greeting templates of `generate_sentiment_based_response`. -/
def sentiment_greeting_templates : List String :=
  ["Hello! I\x27m excited to chat with you today. What\x27s on your mind?",
   "Hi there! I\x27m feeling quite curious today. What would you like to explore together?",
   "Hey! Great to see you. I\x27ve been learning so much lately and I\x27m eager to share. What interests you?",
   "Hello! Ready for an interesting conversation? What would you like to talk about?"]

/-- The farewell templates. -/
def sentiment_farewell_templates : List String :=
  ["It was wonderful chatting with you! I always learn something new from our conversations. See you soon!",
   "Take care! I really enjoyed our discussion. Until next time!",
   "Goodbye! Thanks for the engaging conversation. I\x27ll be here whenever you want to chat again.",
   "See you later! I appreciate our chat today."]

/-- The positive-sentiment templates. -/
def sentiment_positive_templates : List String :=
  ["I love your positive energy! It\x27s contagious and makes our conversation so much more enjoyable. What\x27s bringing you joy today?",
   "Your enthusiasm is wonderful! It reminds me why I enjoy learning and growing through our chats. What\x27s got you excited?",
   "That positive vibe is amazing! I find that good energy leads to the best conversations. What\x27s on your mind?",
   "Your good mood is infectious! What\x27s making you feel so positive today?"]

/-- The negative-sentiment templates. -/
def sentiment_negative_templates : List String :=
  ["I can sense you might be going through something difficult. Sometimes talking helps. I\x27m here to listen if you\x27d like to share.",
   "It sounds like things might be challenging right now. I may not have all the answers, but I\x27m here to support you. What\x27s going on?",
   "I hear that you might be struggling with something. Would it help to talk about what\x27s bothering you?",
   "I\x27m here to listen if you need someone to talk to. What\x27s on your mind?"]

/-- The neutral templates. -/
def sentiment_neutral_templates : List String :=
  ["I\x27m here and ready to chat about whatever interests you. What\x27s been on your mind lately?",
   "I\x27m curious about what you\x27d like to explore today. I\x27ve been learning so much and I\x27m eager to share ideas with you.",
   "Every conversation teaches me something new. What would you like to discuss or discover together?",
   "I find each chat fascinating in its own way. What topics or thoughts are capturing your attention these days?",
   "What\x27s interesting you today? I\x27m always up for a good conversation."]

/-- Embedding of `generate_sentiment_based_response`. -/
def generate_sentiment_based_response (context : ConvContext)
    (recent_responses : List String) (g : RNG) : Except String (String × RNG) :=
  let responses :=
    if context.is_greeting then sentiment_greeting_templates
    else if context.is_farewell then sentiment_farewell_templates
    else if context.sentiment = "positive" then sentiment_positive_templates
    else if context.sentiment = "negative" then sentiment_negative_templates
    else sentiment_neutral_templates
  let available := responses.filter (fun r =>
    !(recent_responses.any (fun recent => responses_too_similar r recent)))
  if available ≠ [] then randChoice available g
  else .ok ("I\x27m here and ready to chat! What would you like to talk about?", g)

/-! ### `ai_model.py`: the joke teller and the coding helper -/

/-- The technology jokes, verbatim. -/
def tech_jokes : List String :=
  ["Why do programmers prefer dark mode? Because light attracts bugs! 🐛",
   "How many programmers does it take to change a light bulb? None, that\x27s a hardware problem! 💡",
   "Why do Java developers wear glasses? Because they can\x27t C#! 👓",
   "A SQL query goes into a bar, walks up to two tables and asks... \x27Can I join you?\x27 🍺",
   "Why don\x27t programmers like nature? It has too many bugs! 🌿🐛",
   "There are only 10 types of people in the world: those who understand binary and those who don\x27t! 😄"]

/-- The general jokes, verbatim. -/
def general_jokes : List String :=
  ["Why don\x27t scientists trust atoms? Because they make up everything! ⚛️",
   "I told my wife she was drawing her eyebrows too high. She looked surprised! 😮",
   "Why don\x27t eggs tell jokes? They\x27d crack each other up! 🥚😂",
   "What do you call a fake noodle? An impasta! 🍝",
   "Why did the scarecrow win an award? He was outstanding in his field! 🌾",
   "What\x27s the best thing about Switzerland? I don\x27t know, but the flag is a big plus! 🇨🇭➕"]

/-- The AI jokes, verbatim. -/
def ai_jokes : List String :=
  ["Why did the AI go to therapy? It had too many deep learning issues! 🤖",
   "What do you call an AI that sings? A neural network! 🎵",
   "Why don\x27t robots ever panic? They have excellent processing power! 💻",
   "What\x27s an AI\x27s favorite type of music? Algo-rhythms! 🎶"]

/-- The joke follow-up suffixes, verbatim. -/
def joke_follow_ups : List String :=
  [" Hope that made you smile! Want to hear another one?",
   " Did that get a chuckle? I\x27ve got more where that came from! 😄",
   " Laughter is the best debugging tool! Want another joke?",
   " Comedy is all about timing... and good material! What else can I help you with?"]

/-- Embedding of `tell_joke`: pick the joke family from the keywords and
return a joke concatenated with a follow-up. -/
def tell_joke (keywords : List String) (g : RNG) : Except String (String × RNG) := do
  let jokes :=
    if keywords ≠ [] &&
        keywords.any (fun word => ["code", "program", "tech", "computer"].contains word) then
      tech_jokes
    else if keywords ≠ [] &&
        keywords.any (fun word => ["ai", "robot", "artificial"].contains word) then
      ai_jokes
    else general_jokes
  let (joke, g) ← randChoice jokes g
  let (follow_up, g) ← randChoice joke_follow_ups g
  return (joke ++ follow_up, g)

/-- The full set of joke-plus-follow-up replies the joke teller can emit
from the general family. -/
def general_joke_responses : List String :=
  general_jokes.flatMap (fun j => joke_follow_ups.map (fun f => j ++ f))

/-- The Python function example of `generate_function_example`. -/
def function_example_python : String :=
  "Here\x27s a Python function example:\n\n```python\ndef calculate_factorial(n):\n    \x22\x22\x22Calculate factorial of a number\x22\x22\x22\n    if n <= 1:\n        return 1\n    return n * calculate_factorial(n - 1)\n\n# Usage\nresult = calculate_factorial(5)\nprint(f\x225! = \x7bresult\x7d\x22)  # Output: 5! = 120\n```\n\nThis function uses recursion to calculate factorials. Want to see examples in other languages or different types of functions?"

/-- The JavaScript function example. -/
def function_example_javascript : String :=
  "Here\x27s a JavaScript function example:\n\n```javascript\nfunction greetUser(name, time = \x27day\x27) \x7b\n    return `Hello $\x7bname\x7d, have a great $\x7btime\x7d!`;\n\x7d\n\n// Usage\nconsole.log(greetUser(\x27Alice\x27));         // \x22Hello Alice, have a great day!\x22\nconsole.log(greetUser(\x27Bob\x27, \x27evening\x27)); // \x22Hello Bob, have a great evening!\x22\n```\n\nThis shows function parameters with default values. Need help with arrow functions or async functions?"

/-- The fallback sentence of `generate_function_example`. -/
def function_example_default : String :=
  "I can help you write functions! Which programming language are you working with? I can provide examples in Python, JavaScript, Java, C++, and more. What specific type of function do you need help with?"

/-- Embedding of `generate_function_example` (the `keywords` parameter
of the source is unused by its body). -/
def generate_function_example (language : Option String) : String :=
  if language = some ("python") then function_example_python
  else if language = some ("javascript") then function_example_javascript
  else function_example_default

/-- The Python loop example of `generate_loop_example`. -/
def loop_example_python : String :=
  "Here are Python loop examples:\n\n```python\n# For loop with range\nfor i in range(5):\n    print(f\x22Count: \x7bi\x7d\x22)\n\n# For loop with list\nfruits = [\x27apple\x27, \x27banana\x27, \x27orange\x27]\nfor fruit in fruits:\n    print(f\x22I like \x7bfruit\x7d\x22)\n\n# While loop\ncount = 0\nwhile count < 3:\n    print(f\x22While loop: \x7bcount\x7d\x22)\n    count += 1\n\n# List comprehension (Pythonic way)\nsquares = [x**2 for x in range(5)]\nprint(squares)  # [0, 1, 4, 9, 16]\n```\n\nPython loops are very readable and powerful! Need help with specific loop scenarios?"

/-- The JavaScript loop example. -/
def loop_example_javascript : String :=
  "Here are JavaScript loop examples:\n\n```javascript\n// For loop\nfor (let i = 0; i < 5; i++) \x7b\n    console.log(`Count: $\x7bi\x7d`);\n\x7d\n\n// For...of loop (arrays)\nconst fruits = [\x27apple\x27, \x27banana\x27, \x27orange\x27];\nfor (const fruit of fruits) \x7b\n    console.log(`I like $\x7bfruit\x7d`);\n\x7d\n\n// For...in loop (objects)\nconst person = \x7bname: \x27Alice\x27, age: 30, city: \x27New York\x27\x7d;\nfor (const key in person) \x7b\n    console.log(`$\x7bkey\x7d: $\x7bperson[key]\x7d`);\n\x7d\n\n// Array methods (functional approach)\nconst numbers = [1, 2, 3, 4, 5];\nnumbers.forEach(num => console.log(num * 2));\n```\n\nJavaScript offers many ways to iterate! Want to learn about map, filter, or reduce?"

/-- The fallback sentence of `generate_loop_example`. -/
def loop_example_default : String :=
  "I can show you loop examples! Which programming language are you using? I have examples for Python, JavaScript, Java, C++, and more. What type of loop are you trying to create?"

/-- Embedding of `generate_loop_example`. -/
def generate_loop_example (language : Option String) : String :=
  if language = some ("python") then loop_example_python
  else if language = some ("javascript") then loop_example_javascript
  else loop_example_default

/-- The Python class example of `generate_class_example`. -/
def class_example_python : String :=
  "Here\x27s a Python class example:\n\n```python\nclass Dog:\n    def __init__(self, name, breed, age):\n        self.name = name\n        self.breed = breed\n        self.age = age\n        self.energy = 100\n    \n    def bark(self):\n        print(f\x22\x7bself.name\x7d says Woof!\x22)\n        return \x22Woof!\x22\n    \n    def play(self):\n        if self.energy > 20:\n            self.energy -= 20\n            print(f\x22\x7bself.name\x7d is playing! Energy: \x7bself.energy\x7d\x22)\n        else:\n            print(f\x22\x7bself.name\x7d is too tired to play.\x22)\n    \n    def __str__(self):\n        return f\x22\x7bself.name\x7d is a \x7bself.age\x7d-year-old \x7bself.breed\x7d\x22\n\n# Usage\nmy_dog = Dog(\x22Buddy\x22, \x22Golden Retriever\x22, 3)\nprint(my_dog)  # \x22Buddy is a 3-year-old Golden Retriever\x22\nmy_dog.bark()  # \x22Buddy says Woof!\x22\nmy_dog.play()  # \x22Buddy is playing! Energy: 80\x22\n```\n\nThis shows constructor, methods, and string representation. Want to learn about inheritance or properties?"

/-- The JavaScript class example. -/
def class_example_javascript : String :=
  "Here\x27s a JavaScript class example:\n\n```javascript\nclass Car \x7b\n    constructor(make, model, year) \x7b\n        this.make = make;\n        this.model = model;\n        this.year = year;\n        this.mileage = 0;\n    \x7d\n    \n    start() \x7b\n        console.log(`$\x7bthis.make\x7d $\x7bthis.model\x7d is starting...`);\n        return \x27Engine started!\x27;\n    \x7d\n    \n    drive(miles) \x7b\n        this.mileage += miles;\n        console.log(`Drove $\x7bmiles\x7d miles. Total: $\x7bthis.mileage\x7d`);\n    \x7d\n    \n    getInfo() \x7b\n        return `$\x7bthis.year\x7d $\x7bthis.make\x7d $\x7bthis.model\x7d - $\x7bthis.mileage\x7d miles`;\n    \x7d\n\x7d\n\n// Usage\nconst myCar = new Car(\x27Toyota\x27, \x27Camry\x27, 2022);\nconsole.log(myCar.getInfo()); // \x222022 Toyota Camry - 0 miles\x22\nmyCar.start();                // \x22Toyota Camry is starting...\x22\nmyCar.drive(150);             // \x22Drove 150 miles. Total: 150\x22\n```\n\nThis shows ES6 class syntax with constructor and methods. Need help with inheritance or static methods?"

/-- The fallback sentence of `generate_class_example`. -/
def class_example_default : String :=
  "I can help you create classes! Which programming language are you working with? I can show examples in Python, JavaScript, Java, C++, and more. What kind of class are you trying to build?"

/-- Embedding of `generate_class_example`. -/
def generate_class_example (language : Option String) : String :=
  if language = some ("python") then class_example_python
  else if language = some ("javascript") then class_example_javascript
  else class_example_default

/-- The hello-world example table of `generate_hello_world`. -/
def hello_world_examples : List (String × String) :=
  [("python",
    "```python\nprint(\x22Hello, World!\x22)\n\n# Or with a function\ndef greet():\n    return \x22Hello, World!\x22\n\nprint(greet())\n```"),
   ("javascript",
    "```javascript\nconsole.log(\x22Hello, World!\x22);\n\n// Or with a function\nfunction greet() \x7b\n    return \x22Hello, World!\x22;\n\x7d\n\nconsole.log(greet());\n\n// Or as an arrow function\nconst greet = () => \x22Hello, World!\x22;\nconsole.log(greet());\n```"),
   ("java",
    "```java\npublic class HelloWorld \x7b\n    public static void main(String[] args) \x7b\n        System.out.println(\x22Hello, World!\x22);\n    \x7d\n\x7d\n```"),
   ("c++",
    "```cpp\n#include <iostream>\nusing namespace std;\n\nint main() \x7b\n    cout << \x22Hello, World!\x22 << endl;\n    return 0;\n\x7d\n```"),
   ("html",
    "```html\n<!DOCTYPE html>\n<html>\n<head>\n    <title>Hello World</title>\n</head>\n<body>\n    <h1>Hello, World!</h1>\n</body>\n</html>\n```")]

/-- The fallback multi-language hello-world reply. -/
def hello_world_default : String :=
  "Here\x27s Hello World in several popular languages:\n\n**Python:**\n```python\nprint(\x22Hello, World!\x22)\n```\n\n**JavaScript:**\n```javascript\nconsole.log(\x22Hello, World!\x22);\n```\n\n**Java:**\n```java\npublic class HelloWorld \x7b\n    public static void main(String[] args) \x7b\n        System.out.println(\x22Hello, World!\x22);\n    \x7d\n\x7d\n```\n\nWhich language interests you most? I can provide more detailed examples and explain what each part does!"

/-- The Python `str.title` method on a single lowercase word (the only
call site applies it to a known language name). -/
def pyTitleWord (s : String) : String :=
  match s.data with
  | [] => ""
  | c :: rest => ⟨c.toUpper :: rest⟩

/-- Embedding of `generate_hello_world`. -/
def generate_hello_world (language : Option String) : String :=
  match language with
  | some lang =>
    match alistLookup hello_world_examples lang with
    | some ex =>
      "Here\x27s Hello World in " ++ pyTitleWord lang ++ ":\n\n" ++ ex ++
        "\n\nThis is the classic first program! Want to see it in other languages or learn what comes next?"
    | none => hello_world_default
  | none => hello_world_default

/-- The joined help text of `generate_general_coding_help` (the source
joins a fixed list of lines with newlines; its `language`, `message`
and `keywords` parameters are unused by the body). -/
def general_coding_help : String :=
  String.intercalate ("\n")
    ["I\x27d love to help you with coding! Here are some things I can assist with:",
     "",
     "🔧 **Code Examples**: Functions, loops, classes, data structures",
     "🐛 **Debugging Tips**: Common errors and how to fix them",
     "📚 **Best Practices**: Clean code, naming conventions, comments",
     "🎯 **Specific Problems**: Algorithm help, logic assistance",
     "💡 **Learning Path**: What to learn next in your coding journey",
     "",
     "What specific coding challenge are you working on? I can provide:",
     "• Step-by-step explanations",
     "• Working code examples",
     "• Alternative approaches",
     "• Debugging strategies",
     "",
     "Just describe what you\x27re trying to build or the problem you\x27re solving!"]

/-- The language-detection table of `help_with_coding`, in source
order. -/
def language_terms : List (String × List String) :=
  [("python", ["python", "py", "django", "flask"]),
   ("javascript", ["javascript", "js", "node", "react", "vue"]),
   ("java", ["java"]),
   ("c++", ["c++", "cpp"]),
   ("html", ["html", "web"]),
   ("css", ["css", "style"]),
   ("sql", ["sql", "database"])]

/-- Embedding of `help_with_coding`. -/
def help_with_coding (message : String) : String :=
  let message_lower := pyLower message
  let detected_lang := language_terms.findSome? (fun lt =>
    if lt.2.any (fun term => pyIn term message_lower) then some lt.1 else none)
  if pyIn ("function") message_lower || pyIn ("def") message_lower then
    generate_function_example detected_lang
  else if pyIn ("loop") message_lower then generate_loop_example detected_lang
  else if pyIn ("class") message_lower then generate_class_example detected_lang
  else if pyIn ("hello world") message_lower then generate_hello_world detected_lang
  else general_coding_help

/-! ### `ai_model.py`: the file-path response generator -/

/-- The `question_starters` of `initialize_response_patterns`. -/
def response_patterns_question_starters : List String :=
  ["That\x27s a great question about", "When it comes to", "I think about",
   "From what I understand about", "Regarding"]

/-- The `opinion_phrases` of `initialize_response_patterns` (never read
by the pipeline, kept for completeness of the table). -/
def response_patterns_opinion_phrases : List String :=
  ["In my view,", "I believe that", "From my perspective,", "I think that",
   "It seems to me that"]

/-- The `continuation_phrases` of `initialize_response_patterns`. -/
def response_patterns_continuation_phrases : List String :=
  ["What do you think about that?", "How does that sound to you?",
   "What\x27s your experience with this?", "I\x27d love to hear your thoughts.",
   "What would you add to that?"]

/-- Embedding of `generate_contextual_response`.  Both conditions of the
source draw their random boolean before testing the (constant, truthy)
response-pattern table. -/
def generate_contextual_response (main_keyword : String) (topic_info : TopicRecord)
    (g : RNG) : Except String (String × RNG) := do
  let (b1, g) ← randChoice [true, false] g
  let (response_parts, g) ←
    if b1 then do
      let (starter, g) ← randChoice response_patterns_question_starters g
      pure ([starter ++ " " ++ main_keyword ++ ","], g)
    else pure (([] : List String), g)
  let (response_parts, g) ←
    if topic_info.facts ≠ [] then do
      let (fact, g) ← randChoice topic_info.facts g
      pure (response_parts ++ [fact], g)
    else pure (response_parts, g)
  let (b2, g) ← randChoice [true, false] g
  let (response_parts, g) ←
    if b2 then do
      let (continuation, g) ← randChoice response_patterns_continuation_phrases g
      pure (response_parts ++ [continuation], g)
    else pure (response_parts, g)
  if response_parts ≠ [] then
    return (String.intercalate (" ") response_parts, g)
  else
    return ("That\x27s interesting about " ++ main_keyword ++
      ". What would you like to know more about?", g)

/-- Embedding of `generate_keyword_response`. -/
def generate_keyword_response (keywords : List String) (g : RNG) :
    Except String (String × RNG) :=
  let main_keyword := keywords.headD ("that")
  randChoice
    ["I find " ++ main_keyword ++
       " quite interesting. What specifically interests you about it?",
     "That\x27s a great topic about " ++ main_keyword ++ ". Can you tell me more?",
     "I\x27d love to learn more about " ++ main_keyword ++ " from your perspective.",
     "When you mention " ++ main_keyword ++ ", what comes to mind first?",
     "I\x27m curious about your experience with " ++ main_keyword ++ ".",
     "That\x27s fascinating! How did you get interested in " ++ main_keyword ++ "?"] g

/-- The strategies of `generate_response` after the fixed-pattern check.
The learned-responses branch is the slip the development exposes: the
values of `learned_responses` are the records written by
`add_learned_pattern` (dictionaries with four string keys), while this
reader calls `random.choice` on them, which evaluates `seq[i]` for an
integer `i` below the length four and therefore raises a `KeyError`
whenever a learned key is a substring of the message. -/
def generate_response_rest (kb : KnowledgeBase) (message : String)
    (keywords : List String) (g : RNG) : Except String (String × RNG) :=
  match kb.learned_responses.find? (fun lp => pyIn lp.1 message) with
  | some _ =>
    .error ("KeyError: random.choice indexes the learned-pattern dict with an integer")
  | none =>
    match keywords.findSome? (fun kw =>
        (alistLookup kb.topic_knowledge kw).map (fun td => (kw, td))) with
    | some (kw, topic_info) => generate_contextual_response kw topic_info g
    | none =>
      if keywords ≠ [] then generate_keyword_response keywords g
      else
        match alistLookup kb.responses ("default") with
        | some resps => randChoice resps g
        | none => .error ("KeyError: default")

/-- Embedding of `generate_response` (the file/no-database path). -/
def generate_response (kb : KnowledgeBase) (message : String)
    (keywords : List String) (g : RNG) : Except String (String × RNG) :=
  match find_pattern_match kb message with
  | some pattern_match =>
    match alistLookup kb.responses pattern_match with
    | some resps => randChoice resps g
    | none => generate_response_rest kb message keywords g
  | none => generate_response_rest kb message keywords g

/-! ### `ai_model.py`: the enhanced response generator -/

/-- The tail of `generate_enhanced_response` once no topic-table entry
matched: knowledge-grounded reply if any knowledge was found, else the
template families. -/
def enhanced_tail (st : AIState) (keywords : List String) (context : ConvContext)
    (recent_responses : List String) (db_knowledge : List DBItem) (g : RNG) :
    Except String (String × AIState × RNG) :=
  if db_knowledge ≠ [] then
    match generate_knowledge_based_response st.knowledge_base db_knowledge keywords
        context recent_responses g with
    | .ok (r, g) => .ok (r, st, g)
    | .error e => .error e
  else
    match generate_intelligent_keyword_response st.knowledge_base keywords context
        recent_responses g with
    | .ok (r, g) => .ok (r, st, g)
    | .error e => .error e

/-- The knowledge-gathering prefix of `generate_enhanced_response`:
database first, then the in-memory store, then (for questions only) the
encyclopedia search, whose stores update the knowledge base. -/
def enhanced_knowledge (env : PMEnv) (st : AIState) (keywords : List String)
    (is_question : Bool) : List DBItem × KnowledgeBase :=
  let db_knowledge := get_knowledge_from_database env keywords
  let db_knowledge :=
    if db_knowledge = [] then get_knowledge_from_memory st.knowledge_base keywords
    else db_knowledge
  if db_knowledge = [] && keywords ≠ [] && is_question then
    match search_wikipedia_for_keywords env st.knowledge_base keywords with
    | (some wiki_items, kb2) => (wiki_items, kb2)
    | (none, kb2) => (db_knowledge, kb2)
  else (db_knowledge, st.knowledge_base)

/-- Embedding of `generate_enhanced_response`.  The joke and coding
checks run after the knowledge lookups (whose results they ignore) and
before the topic-table match; the encyclopedia search inside the
question branch stores what it finds, so the state threads through. -/
def generate_enhanced_response (env : PMEnv) (st : AIState) (message : String)
    (keywords : List String) (g : RNG) : Except String (String × AIState × RNG) :=
  let context := analyze_conversation_context st message keywords
  let recent_responses :=
    (pyTakeLast 5 st.conversation_memory).filterMap MemEntry.aiResponse
  let wiki := enhanced_knowledge env st keywords context.is_question
  let db_knowledge := wiki.1
  let st := { st with knowledge_base := wiki.2 }
  if ["joke", "funny", "humor", "laugh", "tell me something funny"].any
      (fun w => pyIn w (pyLower message)) then
    match tell_joke keywords g with
    | .ok (r, g) => .ok (r, st, g)
    | .error e => .error e
  else if ["code", "program", "write code", "programming", "function", "script"].any
      (fun w => pyIn w (pyLower message)) then
    .ok (help_with_coding message, st, g)
  else if keywords ≠ [] then
    match find_best_topic_match keywords with
    | some matched_topic =>
      match select_varied_response matched_topic recent_responses context g with
      | .error e => .error e
      | .ok (response, g) =>
        if response ≠ "" then .ok (response, st, g)
        else enhanced_tail st keywords context recent_responses db_knowledge g
    | none => enhanced_tail st keywords context recent_responses db_knowledge g
  else
    match generate_sentiment_based_response context recent_responses g with
    | .ok (r, g) => .ok (r, st, g)
    | .error e => .error e

/-! ### `ai_model.py`: the entry point -/

/-- The response-generation step of `process_message`: the enhanced
path when a database session exists and keywords were found, otherwise
the plain generator (which does not touch the state). -/
def pm_generate (env : PMEnv) (st : AIState) (message : String)
    (keywords : List String) (g : RNG) : Except String (String × AIState × RNG) :=
  if env.db_active && keywords ≠ [] then
    generate_enhanced_response env st message keywords g
  else
    match generate_response st.knowledge_base message keywords g with
    | .ok (r, g) => .ok (r, st, g)
    | .error e => .error e

/-- Embedding of `process_message`: normalise the message, record it,
bump the interaction counter, extract keywords into the rolling context
window, generate a response on the enhanced or plain path, learn from
the interaction, perform the (caught) database write, record the
response, and perform the (caught) periodic file save. -/
def process_message (env : PMEnv) (st : AIState) (message : String)
    (user_id : Option String) (g : RNG) : Except String (String × AIState × RNG) :=
  let message := pyLower (pyStrip message)
  let st := { st with
    conversation_memory := st.conversation_memory ++ [MemEntry.user message user_id] }
  let st := { st with knowledge_base := { st.knowledge_base with
    user_interactions := st.knowledge_base.user_interactions + 1 } }
  let keywords := extract_keywords message
  let st := { st with context_keywords := pyTakeLast 20 (st.context_keywords ++ keywords) }
  match pm_generate env st message keywords g with
  | .error e => .error e
  | .ok (response, st, g) =>
    let st := { st with
      knowledge_base := learn_from_interaction st.knowledge_base message response keywords }
    let _ := if env.db_active then some env.db_write else none
    let st := { st with conversation_memory := st.conversation_memory ++ [MemEntry.ai response] }
    let _ := if st.knowledge_base.user_interactions % 10 = 0 then some env.file_save
      else none
    .ok (response, st, g)

/-! ### Claims C1 to C3: behaviour of the entry point -/

/-- An environment without a database session (the constructor found no
database URL); the web oracle is irrelevant on this path. -/
def no_db_env : PMEnv :=
  ⟨false, fun _ => .ok [], .ok (), .ok (), ⟨fun _ => .error ("unreachable")⟩⟩

/-- An environment with an active database session whose queries succeed
with empty results and whose web fetches fail (and are caught). -/
def db_env : PMEnv :=
  ⟨true, fun _ => .ok [], .ok (), .ok (), ⟨fun _ => .error ("unreachable")⟩⟩

/-- The all-zeroes random stream. -/
def zero_rng : RNG := fun _ => 0

/-- The response of one `process_message` call on a fresh instance. -/
def first_response (env : PMEnv) (m : String) (g : RNG) : Except String String :=
  (process_message env initial_state m none g).map
    (fun (r : String × AIState × RNG) => r.1)

/-- Two consecutive `process_message` calls on a fresh instance,
returning the second response. -/
def run_two_messages (env : PMEnv) (m1 m2 : String) (g : RNG) :
    Except String String :=
  match process_message env initial_state m1 none g with
  | .ok (_, st, g2) => (process_message env st m2 none g2).map
      (fun (r : String × AIState × RNG) => r.1)
  | .error e => .error e

/-- C1 (code bug): `process_message` can raise.  On the no-database
path, the first message teaches a learned pattern whose key
`general:general:abcdefgh` is the second message itself; the second
call then reaches the learned-responses branch of `generate_response`,
where `random.choice` is applied to the learned-pattern record written
by `add_learned_pattern` - a dictionary with four string keys - and the
integer indexing below its length raises `KeyError`, which nothing in
`process_message` catches.  The first call itself succeeds. -/
theorem process_message_raises_on_learned_key :
    first_response no_db_env ("general:abcdefgh") zero_rng =
      .ok ("I find general quite interesting. What specifically interests you about it?") ∧
    run_two_messages no_db_env ("general:abcdefgh") ("general:general:abcdefgh")
        zero_rng =
      .error ("KeyError: random.choice indexes the learned-pattern dict with an integer") := by
  constructor
  · rfl
  · rfl

/-- The four canned greeting replies of the initial knowledge base. -/
def canned_greetings : List String :=
  (alistLookup create_initial_knowledge_base.responses ("greeting")).getD []

/-- The response of one `process_message` call from an arbitrary state. -/
def response_of (env : PMEnv) (st : AIState) (m : String) (g : RNG) :
    Except String String :=
  (process_message env st m none g).map (fun (r : String × AIState × RNG) => r.1)

/-- C2 counterexample: with the database path active, `process_message`
on the message `Hello!` does not return a canned greeting.  The keyword
`hello` sends the enhanced generator to the curated topic table before
`find_pattern_match` is ever consulted, and the reply is the `hello`
topic entry with an enthusiasm closer appended by
`add_contextual_flourish` - not one of the four canned greeting strings
of the initial knowledge base. -/
theorem hello_db_response_not_canned :
    first_response db_env ("Hello!") zero_rng =
      .ok ("Hello there! I\x27m excited to chat with you today. What\x27s on your mind? Your excitement is contagious!") ∧
    ("Hello there! I\x27m excited to chat with you today. What\x27s on your mind? Your excitement is contagious!")
      ∉ canned_greetings :=
  ⟨rfl, by decide⟩

/-- C2 (amended): on the message `Hello!`, `find_pattern_match` returns
the category `greeting`, and on the no-database path `process_message`
returns one of the four canned greeting strings verbatim; on the
database path, however, the reply is the curated `hello` topic entry
with one of the enthusiasm closers appended, for every random stream
and all database, write, save and scraping oracles. -/
theorem hello_greeting_paths (g : RNG) (q : String → Except String (List DBItem))
    (w fs : Except String Unit) (sc : ScrapeEnv) :
    find_pattern_match create_initial_knowledge_base (pyLower (pyStrip ("Hello!"))) =
      some ("greeting") ∧
    (∃ r ∈ canned_greetings,
      first_response (PMEnv.mk false q w fs sc) ("Hello!") g = .ok r) ∧
    (∃ e ∈ enthusiasm_enders,
      first_response (PMEnv.mk true q w fs sc) ("Hello!") g =
        .ok ("Hello there! I\x27m excited to chat with you today. What\x27s on your mind?" ++ e)) := by
  refine ⟨rfl,
    ⟨canned_greetings.get ⟨g 0 % 4, Nat.mod_lt _ (by decide)⟩, List.get_mem _ _ _, rfl⟩,
    ⟨enthusiasm_enders.get ⟨g 0 % 4, Nat.mod_lt _ (by decide)⟩, List.get_mem _ _ _, rfl⟩⟩

/-- C3: on the message `tell me a joke` with the database path active,
the reply is the concatenation of one of the six fixed general jokes
and one of the four fixed follow-up suffixes, for every starting state,
every random stream and all oracles: the joke-request check in
`generate_enhanced_response` fires before the topic-table match and
before any knowledge-grounded reply could be selected. -/
theorem joke_request_priority (st0 : AIState) (g : RNG)
    (q : String → Except String (List DBItem)) (w fs : Except String Unit)
    (sc : ScrapeEnv) :
    ∃ j ∈ general_jokes, ∃ f ∈ joke_follow_ups,
      response_of (PMEnv.mk true q w fs sc) st0 ("tell me a joke") g =
        .ok (j ++ f) := by
  refine ⟨general_jokes.get ⟨g 0 % 6, Nat.mod_lt _ (by decide)⟩, List.get_mem _ _ _,
    joke_follow_ups.get ⟨g 1 % 4, Nat.mod_lt _ (by decide)⟩, List.get_mem _ _ _, rfl⟩

/-! ### Claim C10: the lowercase invariant -/

/-- Characters of a case-folded string are fixed points of folding. -/
theorem mem_pyLower_fixed {s : String} {c : Char} (h : c ∈ (pyLower s).data) :
    Char.toLower c = c := by
  obtain ⟨d, hd, rfl⟩ := List.mem_map.mp h
  exact toLower_idem d

/-- On an already lowercased message, every extracted keyword is fixed
by case folding: word tokens and special matches alike consist of
characters of the lowercased input, so the original-case branch of the
special-token step never adds a second form. -/
theorem extract_keywords_of_lower (s : String) :
    ∀ kw ∈ extract_keywords (pyLower s), pyLower kw = kw := by
  intro kw hkw
  unfold extract_keywords at hkw
  rw [List.mem_dedup] at hkw
  rcases List.mem_append.mp hkw with h | h
  · obtain ⟨hf, _⟩ := List.mem_filter.mp h
    have hinf := (reFindall_sound hf).2
    apply pyLower_fixed_of_chars
    intro c hc
    exact mem_pyLower_fixed (hinf.subset hc)
  · unfold special_keyword_tokens at h
    obtain ⟨kw0, hkw0, hkin⟩ := List.mem_flatMap.mp h
    obtain ⟨p, hp, hkwf⟩ := List.mem_flatMap.mp hkw0
    have hinf := (reFindall_sound hkwf).2
    have hfix : pyLower kw0 = kw0 := by
      apply pyLower_fixed_of_chars
      intro c hc
      exact mem_pyLower_fixed (hinf.subset hc)
    rw [if_neg (not_not_intro hfix)] at hkin
    rw [List.mem_singleton.mp hkin, pyLower_idem]

/-- All topic keys of a topic table are fixed by case folding. -/
abbrev lowerKeyed (l : List (String × TopicRecord)) : Prop :=
  ∀ e ∈ l, pyLower e.1 = e.1

/-- The state invariant: topic keys and the rolling context-keyword
window hold only strings fixed by case folding. -/
abbrev LowerInv (st : AIState) : Prop :=
  lowerKeyed st.knowledge_base.topic_knowledge ∧
  ∀ k ∈ st.context_keywords, pyLower k = k

/-- The state component of a successful `process_message` call. -/
def pm_state (env : PMEnv) (st : AIState) (m : String) (uid : Option String)
    (g : RNG) : Option AIState :=
  (process_message env st m uid g).toOption.map
    (fun (r : String × AIState × RNG) => r.2.1)

theorem pyTakeLast_subset (n : ℕ) (l : List α) : pyTakeLast n l ⊆ l := by
  intro x hx
  exact List.mem_of_mem_drop hx

/-- The per-keyword learner only ever inserts the keyword itself as a
topic key. -/
theorem lowerKeyed_learn_topic_update {kb : KnowledgeBase} {m kw : String}
    (h : lowerKeyed kb.topic_knowledge) (hkw : pyLower kw = kw) :
    lowerKeyed (learn_topic_update kb m kw).topic_knowledge := by
  unfold learn_topic_update
  split
  · intro e he
    rcases alistInsert_mem he with h2 | h2
    · exact h e h2
    · rw [h2]; exact hkw
  · intro e he
    rcases alistInsert_mem he with h2 | h2
    · exact h e h2
    · rw [h2]; exact hkw

/-- `learn_from_interaction` inserts only its (lowercase) keywords as
topic keys; the learned-pattern step never touches the topic table. -/
theorem lowerKeyed_learn {kb : KnowledgeBase} (m r : String) (kws : List String)
    (h : lowerKeyed kb.topic_knowledge) (hkws : ∀ kw ∈ kws, pyLower kw = kw) :
    lowerKeyed (learn_from_interaction kb m r kws).topic_knowledge := by
  have hfold : ∀ (l : List String) (kb2 : KnowledgeBase),
      lowerKeyed kb2.topic_knowledge → (∀ kw ∈ l, pyLower kw = kw) →
      lowerKeyed ((l.foldl (fun kb3 kw => learn_topic_update kb3 m kw) kb2)).topic_knowledge := by
    intro l
    induction l with
    | nil => intro kb2 h2 _; exact h2
    | cons a t ih =>
      intro kb2 h2 hl
      exact ih _ (lowerKeyed_learn_topic_update h2 (hl a (List.mem_cons_self a t)))
        (fun kw hkw => hl kw (List.mem_cons_of_mem a hkw))
  unfold learn_from_interaction
  dsimp only
  split
  · intro e he
    rw [add_learned_pattern_topic] at he
    exact hfold kws kb h hkws e he
  · exact hfold kws kb h hkws

/-- `store_learned_knowledge` lowercases its topic before keying. -/
theorem lowerKeyed_store_learned {kb : KnowledgeBase} (t c : String) (conf : ℚ)
    (src : String) (h : lowerKeyed kb.topic_knowledge) :
    lowerKeyed (store_learned_knowledge kb t c conf src).topic_knowledge := by
  unfold store_learned_knowledge
  dsimp only
  split
  · intro e he
    rcases alistInsert_mem he with h2 | h2
    · exact h e h2
    · rw [h2]; exact pyLower_idem t
  · split
    · exact h
    · intro e he
      rcases alistInsert_mem he with h2 | h2
      · exact h e h2
      · rw [h2]; exact pyLower_idem t

theorem lowerKeyed_store_fold (url : String) (l : List ScrapedItem) :
    ∀ (kb : KnowledgeBase), lowerKeyed kb.topic_knowledge →
    lowerKeyed ((l.foldl (fun kb3 it =>
      store_learned_knowledge kb3 it.topic it.content it.confidence_score url) kb)).topic_knowledge := by
  induction l with
  | nil => intro kb h; exact h
  | cons a t ih =>
    intro kb h
    exact ih _ (lowerKeyed_store_learned _ _ _ _ h)

theorem lowerKeyed_wiki_step (env : PMEnv) (acc : List DBItem × KnowledgeBase × Bool)
    (kw : String) (h : lowerKeyed acc.2.1.topic_knowledge) :
    lowerKeyed ((wiki_step env acc kw).2.1).topic_knowledge := by
  obtain ⟨items, kb, brk⟩ := acc
  cases brk
  · unfold wiki_step
    dsimp only
    split
    · dsimp only
      exact lowerKeyed_store_fold _ _ _ h
    · exact h
  · exact h

theorem lowerKeyed_search (env : PMEnv) (kb : KnowledgeBase) (kws : List String)
    (h : lowerKeyed kb.topic_knowledge) :
    lowerKeyed ((search_wikipedia_for_keywords env kb kws).2).topic_knowledge := by
  have hfold : ∀ (l : List String) (acc : List DBItem × KnowledgeBase × Bool),
      lowerKeyed acc.2.1.topic_knowledge →
      lowerKeyed ((l.foldl (wiki_step env) acc).2.1).topic_knowledge := by
    intro l
    induction l with
    | nil => intro acc h2; exact h2
    | cons a t ih =>
      intro acc h2
      exact ih _ (lowerKeyed_wiki_step env acc a h2)
  unfold search_wikipedia_for_keywords
  dsimp only
  exact hfold _ _ h

theorem lowerKeyed_enhanced_knowledge (env : PMEnv) (st : AIState)
    (kws : List String) (isq : Bool)
    (h : lowerKeyed st.knowledge_base.topic_knowledge) :
    lowerKeyed ((enhanced_knowledge env st kws isq).2).topic_knowledge := by
  have hs := lowerKeyed_search env st.knowledge_base kws h
  unfold enhanced_knowledge
  dsimp only
  split <;> split
  · split
    · rename_i wi kb2 heq
      rw [heq] at hs
      exact hs
    · rename_i kb2 heq
      rw [heq] at hs
      exact hs
  · exact h
  · split
    · rename_i wi kb2 heq
      rw [heq] at hs
      exact hs
    · rename_i kb2 heq
      rw [heq] at hs
      exact hs
  · exact h

/-- The template tail of the enhanced generator never changes state. -/
theorem enhanced_tail_state {st : AIState} {kws : List String} {ctx : ConvContext}
    {rec : List String} {dbk : List DBItem} {g : RNG} {r : String} {st2 : AIState}
    {g2 : RNG} (h : enhanced_tail st kws ctx rec dbk g = .ok (r, st2, g2)) :
    st2 = st := by
  unfold enhanced_tail at h
  split at h
  · split at h
    · simp only [Except.ok.injEq, Prod.mk.injEq] at h
      exact h.2.1.symm
    · exact Except.noConfusion h
  · split at h
    · simp only [Except.ok.injEq, Prod.mk.injEq] at h
      exact h.2.1.symm
    · exact Except.noConfusion h

/-- The state a successful enhanced generation returns is always the
input state with the knowledge base replaced by the one the
knowledge-gathering prefix produced. -/
theorem generate_enhanced_state {env : PMEnv} {st : AIState} {m : String}
    {kws : List String} {g : RNG} {r : String} {st2 : AIState} {g2 : RNG}
    (h : generate_enhanced_response env st m kws g = .ok (r, st2, g2)) :
    st2 = { st with knowledge_base :=
      (enhanced_knowledge env st kws
        (analyze_conversation_context st m kws).is_question).2 } := by
  unfold generate_enhanced_response at h
  dsimp only at h
  split at h
  · split at h
    · simp only [Except.ok.injEq, Prod.mk.injEq] at h
      exact h.2.1.symm
    · exact Except.noConfusion h
  · split at h
    · simp only [Except.ok.injEq, Prod.mk.injEq] at h
      exact h.2.1.symm
    · split at h
      · split at h
        · split at h
          · exact Except.noConfusion h
          · split at h
            · simp only [Except.ok.injEq, Prod.mk.injEq] at h
              exact h.2.1.symm
            · exact enhanced_tail_state h
        · exact enhanced_tail_state h
      · split at h
        · simp only [Except.ok.injEq, Prod.mk.injEq] at h
          exact h.2.1.symm
        · exact Except.noConfusion h

/-- The response-generation step keeps the topic keys lowercase and
never touches the context-keyword window. -/
theorem pm_generate_state {env : PMEnv} {st : AIState} {m : String}
    {kws : List String} {g : RNG} {r : String} {st2 : AIState} {g2 : RNG}
    (h : pm_generate env st m kws g = .ok (r, st2, g2))
    (hk : lowerKeyed st.knowledge_base.topic_knowledge) :
    lowerKeyed st2.knowledge_base.topic_knowledge ∧
    st2.context_keywords = st.context_keywords := by
  unfold pm_generate at h
  split at h
  · have h2 := generate_enhanced_state h
    subst h2
    exact ⟨lowerKeyed_enhanced_knowledge env st kws _ hk, rfl⟩
  · split at h
    · simp only [Except.ok.injEq, Prod.mk.injEq] at h
      obtain ⟨h1, h2, h3⟩ := h
      subst h2
      exact ⟨hk, rfl⟩
    · exact Except.noConfusion h

/-- `process_message` preserves the lowercase invariant: the message is
case folded before keyword extraction, so every keyword entering the
topic table and the context window is fixed by case folding. -/
theorem process_message_keeps_inv {env : PMEnv} {st : AIState} {m : String}
    {uid : Option String} {g : RNG} (hinv : LowerInv st) :
    ∀ st2 ∈ pm_state env st m uid g, LowerInv st2 := by
  intro st2 hst2
  obtain ⟨hk, hctx⟩ := hinv
  unfold pm_state process_message at hst2
  dsimp only at hst2
  split at hst2
  · simp [Except.toOption] at hst2
  · rename_i resp stE g0 heq
    simp only [Except.toOption, Option.map_some', Option.mem_def,
      Option.some.injEq] at hst2
    obtain ⟨hkE, hctxE⟩ := pm_generate_state heq (fun e he => hk e he)
    subst hst2
    refine ⟨?_, ?_⟩
    · intro e he
      exact lowerKeyed_learn (pyLower (pyStrip m)) resp
        (extract_keywords (pyLower (pyStrip m))) hkE
        (fun kw hkw => extract_keywords_of_lower (pyStrip m) kw hkw) e he
    · intro k hkm
      have hkm2 : k ∈ stE.context_keywords := hkm
      rw [hctxE] at hkm2
      have hkm3 : k ∈ pyTakeLast 20
          (st.context_keywords ++ extract_keywords (pyLower (pyStrip m))) := hkm2
      rcases List.mem_append.mp (pyTakeLast_subset 20 _ hkm3) with h2 | h2
      · exact hctx k h2
      · exact extract_keywords_of_lower (pyStrip m) k h2

/-- C10: every keyword produced during a `process_message` call is an
all-lowercase string.  The entry point case folds the message before
calling `extract_keywords`, so every extracted keyword is fixed by case
folding (in particular, the branch of the special-token step that
re-adds a distinct original-case form is unreachable on this path), and
consequently every topic key created by `learn_from_interaction` or the
encyclopedia store and every entry of the rolling context-keyword
window stays lowercase: the invariant is preserved by every successful
call. -/
theorem process_message_lowercase_invariant (env : PMEnv) (st : AIState)
    (m : String) (uid : Option String) (g : RNG) (hinv : LowerInv st) :
    (∀ kw ∈ extract_keywords (pyLower (pyStrip m)), pyLower kw = kw) ∧
    ∀ st2 ∈ pm_state env st m uid g, LowerInv st2 :=
  ⟨extract_keywords_of_lower (pyStrip m), process_message_keeps_inv hinv⟩

/-- C10 witness: the invariant theorem applied to the fresh instance on
the message `Hello!`. -/
theorem process_message_lowercase_invariant_witness :
    pyLower ("hello") = "hello" ∧
    ∀ st2 ∈ pm_state no_db_env initial_state ("Hello!") none zero_rng, LowerInv st2 :=
  ⟨(process_message_lowercase_invariant no_db_env initial_state ("Hello!") none zero_rng
      ⟨fun e he => absurd he (List.not_mem_nil e),
       fun k hk => absurd hk (List.not_mem_nil k)⟩).1 ("hello") (by decide),
   (process_message_lowercase_invariant no_db_env initial_state ("Hello!") none zero_rng
      ⟨fun e he => absurd he (List.not_mem_nil e),
       fun k hk => absurd hk (List.not_mem_nil k)⟩).2⟩
